import Mathlib

/-!
# GraphBLAS `GB_AxB_factory.c`: the switch factory for C=A*B

A shallow embedding of `GraphBLAS/Source/Template/GB_AxB_factory.c`.
The file is a template: the including file supplies `mult_opcode`,
`add_opcode`, `xcode`, `ycode`, `zcode` and the `GB_AxB_WORKER` macro; each
`case` of the switch defines `GB_MNAME` (and possibly `GB_NO_BOOLEAN`,
`GB_COMPLEX`, `GB_MULT_IS_PAIR_OPERATOR`) and includes one of four second-level
factories.  The switch itself is embedded as the table `GB_AxB_factory_cases`,
one entry per `case` group, in source order.
-/

namespace GraphBLAS

/-! ## Data model -/

/-- Operator codes (the C enum `GB_Opcode`, declared outside this file).  Both
`mult_opcode` and `add_opcode` have this type.  The constructors named here are
the enumerators that occur in `GB_AxB_factory.c`; `GB_other_opcode k` stands
for any other enumerator of the enum (POW, user-defined operators, unary
operators, ...). -/
inductive GB_Opcode where
  | GB_FIRST_opcode
  | GB_SECOND_opcode
  | GB_PAIR_opcode
  | GB_MIN_opcode
  | GB_MAX_opcode
  | GB_PLUS_opcode
  | GB_MINUS_opcode
  | GB_RMINUS_opcode
  | GB_TIMES_opcode
  | GB_DIV_opcode
  | GB_RDIV_opcode
  | GB_ISEQ_opcode
  | GB_ISNE_opcode
  | GB_ISGT_opcode
  | GB_ISLT_opcode
  | GB_ISGE_opcode
  | GB_ISLE_opcode
  | GB_EQ_opcode
  | GB_NE_opcode
  | GB_GT_opcode
  | GB_LT_opcode
  | GB_GE_opcode
  | GB_LE_opcode
  | GB_LOR_opcode
  | GB_LAND_opcode
  | GB_LXOR_opcode
  | GB_BOR_opcode
  | GB_BAND_opcode
  | GB_BXOR_opcode
  | GB_BXNOR_opcode
  | GB_FIRSTI_opcode
  | GB_FIRSTI1_opcode
  | GB_FIRSTJ_opcode
  | GB_SECONDI_opcode
  | GB_FIRSTJ1_opcode
  | GB_SECONDI1_opcode
  | GB_SECONDJ_opcode
  | GB_SECONDJ1_opcode
  | GB_ANY_opcode
  | GB_other_opcode (k : Nat)
  deriving DecidableEq, Repr

/-- Modelled from the spec: the type codes (`GB_Type_code`, declared outside
this file): boolean, eight signed/unsigned integer widths, two floating-point
precisions, two complex precisions. -/
inductive GB_Type_code where
  | GB_BOOL_code
  | GB_INT8_code
  | GB_UINT8_code
  | GB_INT16_code
  | GB_UINT16_code
  | GB_INT32_code
  | GB_UINT32_code
  | GB_INT64_code
  | GB_UINT64_code
  | GB_FP32_code
  | GB_FP64_code
  | GB_FC32_code
  | GB_FC64_code
  deriving DecidableEq, Repr

/-- The four second-level factories a `case` can `#include`. -/
inductive Include where
  | GB_AxB_type_factory
  | GB_AxB_compare_factory
  | GB_AxB_bitwise_factory
  | GB_AxB_positional_factory
  deriving DecidableEq, Repr

/-- One `case` group of the switch: its labels, the macros it defines before
the `#include`, and the factory it includes.  A flag is `true` when the case
contains the corresponding `#define`.  The included factories (not part of
this file) are taken to end with `#undef` of `GB_MNAME`, `GB_NO_BOOLEAN` and
`GB_COMPLEX`, as the redefinition of `GB_MNAME` in every case requires and as
the per-case semiring counts in the comments assume; `GB_MULT_IS_PAIR_OPERATOR`
is undefined by the PAIR case itself.  So the macros in effect at an `#include`
are those of its own case. -/
structure SwitchCase where
  labels : List GB_Opcode
  GB_MNAME : String
  GB_NO_BOOLEAN : Bool
  GB_COMPLEX : Bool
  GB_MULT_IS_PAIR_OPERATOR : Bool
  factory : Include
  deriving DecidableEq, Repr

open GB_Opcode GB_Type_code

/-- The `case` groups of `switch (mult_opcode)`, in source order.  Columns:
labels, `GB_MNAME`, `GB_NO_BOOLEAN`, `GB_COMPLEX`, `GB_MULT_IS_PAIR_OPERATOR`,
included factory.  The `default: ;` case has no entry. -/
def GB_AxB_factory_cases : List SwitchCase :=
  [
    -- z = x
    ⟨[GB_FIRST_opcode], "_first", false, true, false, .GB_AxB_type_factory⟩,
    -- z = y
    ⟨[GB_SECOND_opcode], "_second", false, true, false, .GB_AxB_type_factory⟩,
    -- z = 1
    ⟨[GB_PAIR_opcode], "_pair", false, true, true, .GB_AxB_type_factory⟩,
    -- z = min(x,y)
    ⟨[GB_MIN_opcode], "_min", true, false, false, .GB_AxB_type_factory⟩,
    -- z = max(x,y)
    ⟨[GB_MAX_opcode], "_max", true, false, false, .GB_AxB_type_factory⟩,
    -- z = x + y
    ⟨[GB_PLUS_opcode], "_plus", true, true, false, .GB_AxB_type_factory⟩,
    -- z = x - y
    ⟨[GB_MINUS_opcode], "_minus", true, true, false, .GB_AxB_type_factory⟩,
    -- z = y - x
    ⟨[GB_RMINUS_opcode], "_rminus", true, true, false, .GB_AxB_type_factory⟩,
    -- z = x * y
    ⟨[GB_TIMES_opcode], "_times", true, true, false, .GB_AxB_type_factory⟩,
    -- z = x / y
    ⟨[GB_DIV_opcode], "_div", true, true, false, .GB_AxB_type_factory⟩,
    -- z = y / x
    ⟨[GB_RDIV_opcode], "_rdiv", true, true, false, .GB_AxB_type_factory⟩,
    -- z = (x == y)
    ⟨[GB_ISEQ_opcode], "_iseq", true, false, false, .GB_AxB_type_factory⟩,
    -- z = (x != y)
    ⟨[GB_ISNE_opcode], "_isne", true, false, false, .GB_AxB_type_factory⟩,
    -- z = (x >  y)
    ⟨[GB_ISGT_opcode], "_isgt", true, false, false, .GB_AxB_type_factory⟩,
    -- z = (x <  y)
    ⟨[GB_ISLT_opcode], "_islt", true, false, false, .GB_AxB_type_factory⟩,
    -- z = (x >= y)
    ⟨[GB_ISGE_opcode], "_isge", true, false, false, .GB_AxB_type_factory⟩,
    -- z = (x <= y)
    ⟨[GB_ISLE_opcode], "_isle", true, false, false, .GB_AxB_type_factory⟩,
    -- z = (x == y)
    ⟨[GB_EQ_opcode], "_eq", false, false, false, .GB_AxB_compare_factory⟩,
    -- z = (x != y)
    ⟨[GB_NE_opcode], "_ne", true, false, false, .GB_AxB_compare_factory⟩,
    -- z = (x >  y)
    ⟨[GB_GT_opcode], "_gt", false, false, false, .GB_AxB_compare_factory⟩,
    -- z = (x <  y)
    ⟨[GB_LT_opcode], "_lt", false, false, false, .GB_AxB_compare_factory⟩,
    -- z = (x >= y)
    ⟨[GB_GE_opcode], "_ge", false, false, false, .GB_AxB_compare_factory⟩,
    -- z = (x <= y)
    ⟨[GB_LE_opcode], "_le", false, false, false, .GB_AxB_compare_factory⟩,
    -- z = x || y
    ⟨[GB_LOR_opcode], "_lor", false, false, false, .GB_AxB_type_factory⟩,
    -- z = x && y
    ⟨[GB_LAND_opcode], "_land", false, false, false, .GB_AxB_type_factory⟩,
    -- z = x != y
    ⟨[GB_LXOR_opcode], "_lxor", false, false, false, .GB_AxB_type_factory⟩,
    -- z = (x | y)
    ⟨[GB_BOR_opcode], "_bor", false, false, false, .GB_AxB_bitwise_factory⟩,
    -- z = (x & y)
    ⟨[GB_BAND_opcode], "_band", false, false, false, .GB_AxB_bitwise_factory⟩,
    -- z = (x ^ y)
    ⟨[GB_BXOR_opcode], "_bxor", false, false, false, .GB_AxB_bitwise_factory⟩,
    -- z = ~(x ^ y)
    ⟨[GB_BXNOR_opcode], "_bxnor", false, false, false, .GB_AxB_bitwise_factory⟩,
    -- z = i
    ⟨[GB_FIRSTI_opcode], "_firsti", false, false, false, .GB_AxB_positional_factory⟩,
    -- z = i+1
    ⟨[GB_FIRSTI1_opcode], "_firsti1", false, false, false, .GB_AxB_positional_factory⟩,
    -- z = k
    ⟨[GB_FIRSTJ_opcode, GB_SECONDI_opcode], "_firstj", false, false, false, .GB_AxB_positional_factory⟩,
    -- z = k+1
    ⟨[GB_FIRSTJ1_opcode, GB_SECONDI1_opcode], "_firstj1", false, false, false, .GB_AxB_positional_factory⟩,
    -- z = j
    ⟨[GB_SECONDJ_opcode], "_secondj", false, false, false, .GB_AxB_positional_factory⟩,
    -- z = j+1
    ⟨[GB_SECONDJ1_opcode], "_secondj1", false, false, false, .GB_AxB_positional_factory⟩
  ]

/-- The C `switch`: control jumps to the `case` group that carries the label
`mult_opcode`; `none` is the `default: ;` case. -/
def selectCase (mult_opcode : GB_Opcode) : Option SwitchCase :=
  GB_AxB_factory_cases.find? (fun c => decide (mult_opcode ∈ c.labels))

/-- Number of `case` groups whose labels contain `mult_opcode`. -/
def handlers (mult_opcode : GB_Opcode) : Nat :=
  GB_AxB_factory_cases.countP (fun c => decide (mult_opcode ∈ c.labels))

/-- The factory the switch includes for `mult_opcode`, if any. -/
def factoryOf (mult_opcode : GB_Opcode) : Option Include :=
  (selectCase mult_opcode).map SwitchCase.factory

/-! ## Kernels and the second-level factories -/

/-- The kernel named by `GB_AxB_WORKER (add, GB_MNAME, type)`: the monoid, the
multiply name of the enclosing `case`, and the type the kernel is specialised
for. -/
structure Kernel where
  add : GB_Opcode
  mult : String
  type : GB_Type_code
  deriving DecidableEq, Repr

/-- The ten non-boolean real types. -/
def isRealNonBool : GB_Type_code → Bool
  | GB_INT8_code | GB_UINT8_code | GB_INT16_code | GB_UINT16_code
  | GB_INT32_code | GB_UINT32_code | GB_INT64_code | GB_UINT64_code
  | GB_FP32_code | GB_FP64_code => true
  | _ => false

/-- The two complex types. -/
def isComplex : GB_Type_code → Bool
  | GB_FC32_code | GB_FC64_code => true
  | _ => false

/-- The four unsigned integer types. -/
def isUnsigned : GB_Type_code → Bool
  | GB_UINT8_code | GB_UINT16_code | GB_UINT32_code | GB_UINT64_code => true
  | _ => false

/-- Modelled from the spec: `GB_AxB_type_factory.c` is not part of the sources
at hand.  Spec 4.2: the monoids (min, max, plus, times, any) are crossed with
the 10 non-boolean real types; the boolean type, unless `GB_NO_BOOLEAN`, takes
the monoids (or, and, xor, eq, any); the 2 complex types, only if `GB_COMPLEX`,
admit only (plus, times, any).  The case comment of PAIR in `GB_AxB_factory.c`
adds that under `GB_MULT_IS_PAIR_OPERATOR` only (plus, any), resp. (xor, any)
for boolean, remain.  The multiply operator is TxT->T, so the type is read
from `xcode`. -/
def GB_AxB_type_factory (c : SwitchCase) (add_opcode : GB_Opcode)
    (xcode _ycode _zcode : GB_Type_code) : Option Kernel :=
  if isRealNonBool xcode then
    match add_opcode with
    | GB_MIN_opcode | GB_MAX_opcode | GB_TIMES_opcode =>
      if c.GB_MULT_IS_PAIR_OPERATOR then none
      else some ⟨add_opcode, c.GB_MNAME, xcode⟩
    | GB_PLUS_opcode | GB_ANY_opcode => some ⟨add_opcode, c.GB_MNAME, xcode⟩
    | _ => none
  else if xcode = GB_BOOL_code then
    if c.GB_NO_BOOLEAN then none
    else
      match add_opcode with
      | GB_LOR_opcode | GB_LAND_opcode | GB_EQ_opcode =>
        if c.GB_MULT_IS_PAIR_OPERATOR then none
        else some ⟨add_opcode, c.GB_MNAME, xcode⟩
      | GB_LXOR_opcode | GB_ANY_opcode => some ⟨add_opcode, c.GB_MNAME, xcode⟩
      | _ => none
  else if c.GB_COMPLEX then
    match add_opcode with
    | GB_TIMES_opcode =>
      if c.GB_MULT_IS_PAIR_OPERATOR then none
      else some ⟨add_opcode, c.GB_MNAME, xcode⟩
    | GB_PLUS_opcode | GB_ANY_opcode => some ⟨add_opcode, c.GB_MNAME, xcode⟩
    | _ => none
  else none

/-- Modelled from the spec: `GB_AxB_compare_factory.c` is not part of the
sources at hand.  Spec 4.3: the boolean monoids (or, and, xor, eq, any) crossed
with the 11 real (non-complex) operand types; the boolean operand type is left
out under `GB_NO_BOOLEAN` (the NE case). -/
def GB_AxB_compare_factory (c : SwitchCase) (add_opcode : GB_Opcode)
    (xcode _ycode _zcode : GB_Type_code) : Option Kernel :=
  if isComplex xcode then none
  else if xcode = GB_BOOL_code ∧ c.GB_NO_BOOLEAN = true then none
  else
    match add_opcode with
    | GB_LOR_opcode | GB_LAND_opcode | GB_LXOR_opcode | GB_EQ_opcode
    | GB_ANY_opcode => some ⟨add_opcode, c.GB_MNAME, xcode⟩
    | _ => none

/-- Modelled from the spec: `GB_AxB_bitwise_factory.c` is not part of the
sources at hand.  Spec 4.4: the monoids (bor, band, bxor, bxnor) crossed with
the unsigned integer types of width 8, 16, 32, 64. -/
def GB_AxB_bitwise_factory (c : SwitchCase) (add_opcode : GB_Opcode)
    (xcode _ycode _zcode : GB_Type_code) : Option Kernel :=
  if isUnsigned xcode then
    match add_opcode with
    | GB_BOR_opcode | GB_BAND_opcode | GB_BXOR_opcode | GB_BXNOR_opcode =>
      some ⟨add_opcode, c.GB_MNAME, xcode⟩
    | _ => none
  else none

/-- Modelled from the spec: `GB_AxB_positional_factory.c` is not part of the
sources at hand.  Spec 4.5: the monoids (min, max, plus, times, any) crossed
with the output types int32 and int64; the operand types are not consulted. -/
def GB_AxB_positional_factory (c : SwitchCase) (add_opcode : GB_Opcode)
    (_xcode _ycode zcode : GB_Type_code) : Option Kernel :=
  if zcode = GB_INT32_code ∨ zcode = GB_INT64_code then
    match add_opcode with
    | GB_MIN_opcode | GB_MAX_opcode | GB_PLUS_opcode | GB_TIMES_opcode
    | GB_ANY_opcode => some ⟨add_opcode, c.GB_MNAME, zcode⟩
    | _ => none
  else none

/-- The type of an included factory body: it sees the macros of the enclosing
`case` and the variables `add_opcode`, `xcode`, `ycode`, `zcode`. -/
abbrev FactoryBody :=
  SwitchCase → GB_Opcode → GB_Type_code → GB_Type_code → GB_Type_code → Option Kernel

/-- The four included factory bodies, by `#include`. -/
def includedFactory : Include → FactoryBody
  | .GB_AxB_type_factory => GB_AxB_type_factory
  | .GB_AxB_compare_factory => GB_AxB_compare_factory
  | .GB_AxB_bitwise_factory => GB_AxB_bitwise_factory
  | .GB_AxB_positional_factory => GB_AxB_positional_factory

/-! ## The top-level dispatch -/

/-- Outcome of running the template: the fatal assertion failure, no built-in
kernel (the caller falls back to the generic method), or the kernel of the
`GB_AxB_WORKER` that was reached. -/
inductive Outcome where
  | assertion_failed
  | unmatched
  | matched (k : Kernel)
  deriving DecidableEq, Repr

/-- An optional kernel as an outcome. -/
def Outcome.ofOption : Option Kernel → Outcome
  | none => .unmatched
  | some k => .matched k

/-- `GB_AxB_factory.c` over arbitrary included factory bodies `inc`.
`GB_DEBUG` tells whether `ASSERT` is compiled in.  First
`ASSERT (mult_opcode != GB_ANY_opcode)`, then `switch (mult_opcode)`: the
selected `case` runs the factory it includes, with its own macros; the
`default` case does nothing. -/
def GB_AxB_factory_with (inc : Include → FactoryBody) (GB_DEBUG : Bool)
    (mult_opcode add_opcode : GB_Opcode) (xcode ycode zcode : GB_Type_code) : Outcome :=
  if GB_DEBUG = true ∧ mult_opcode = GB_ANY_opcode then .assertion_failed
  else
    match selectCase mult_opcode with
    | some c => Outcome.ofOption (inc c.factory c add_opcode xcode ycode zcode)
    | none => .unmatched

/-- `GB_AxB_factory.c` with the four factories it includes. -/
def GB_AxB_factory (GB_DEBUG : Bool) (mult_opcode add_opcode : GB_Opcode)
    (xcode ycode zcode : GB_Type_code) : Outcome :=
  GB_AxB_factory_with includedFactory GB_DEBUG mult_opcode add_opcode xcode ycode zcode

/-- The flag `GB_COMPLEX` in effect for `mult_opcode` (false when no case is
selected). -/
def complexEligible (mult_opcode : GB_Opcode) : Bool :=
  match selectCase mult_opcode with
  | some c => c.GB_COMPLEX
  | none => false

/-- The flag `GB_NO_BOOLEAN` in effect for `mult_opcode` (false when no case
is selected). -/
def excludeBoolean (mult_opcode : GB_Opcode) : Bool :=
  match selectCase mult_opcode with
  | some c => c.GB_NO_BOOLEAN
  | none => false

/-- The kernel name `GB_MNAME` in effect for `mult_opcode`, if a case is
selected. -/
def mnameOf (mult_opcode : GB_Opcode) : Option String :=
  (selectCase mult_opcode).map SwitchCase.GB_MNAME

/-- The 38 opcodes that label a `case` of the switch, in source order. -/
def switchLabels : List GB_Opcode :=
  GB_AxB_factory_cases.flatMap SwitchCase.labels

/-! ## The families and tag sets named by the specification -/

/-- Tags the specification assigns to the type factory. -/
def typeFamily : List GB_Opcode :=
  [GB_FIRST_opcode, GB_SECOND_opcode, GB_PAIR_opcode, GB_MIN_opcode, GB_MAX_opcode,
   GB_PLUS_opcode, GB_MINUS_opcode, GB_RMINUS_opcode, GB_TIMES_opcode, GB_DIV_opcode,
   GB_RDIV_opcode, GB_ISEQ_opcode, GB_ISNE_opcode, GB_ISGT_opcode, GB_ISLT_opcode,
   GB_ISGE_opcode, GB_ISLE_opcode, GB_LOR_opcode, GB_LAND_opcode, GB_LXOR_opcode]

/-- Tags the specification assigns to the compare factory. -/
def compareFamily : List GB_Opcode :=
  [GB_EQ_opcode, GB_NE_opcode, GB_GT_opcode, GB_LT_opcode, GB_GE_opcode, GB_LE_opcode]

/-- Tags the specification assigns to the bitwise factory. -/
def bitwiseFamily : List GB_Opcode :=
  [GB_BOR_opcode, GB_BAND_opcode, GB_BXOR_opcode, GB_BXNOR_opcode]

/-- Tags the specification assigns to the positional factory. -/
def positionalFamily : List GB_Opcode :=
  [GB_FIRSTI_opcode, GB_FIRSTI1_opcode, GB_FIRSTJ_opcode, GB_FIRSTJ1_opcode,
   GB_SECONDI_opcode, GB_SECONDI1_opcode, GB_SECONDJ_opcode, GB_SECONDJ1_opcode]

/-- The two pairs of positional tags that share a `case`. -/
def aliasPair (a b : GB_Opcode) : Prop :=
  (a = GB_FIRSTJ_opcode ∧ b = GB_SECONDI_opcode) ∨
  (a = GB_SECONDI_opcode ∧ b = GB_FIRSTJ_opcode) ∨
  (a = GB_FIRSTJ1_opcode ∧ b = GB_SECONDI1_opcode) ∨
  (a = GB_SECONDI1_opcode ∧ b = GB_FIRSTJ1_opcode)

instance (a b : GB_Opcode) : Decidable (aliasPair a b) := by
  unfold aliasPair; infer_instance

/-! ## Counting the bound semirings -/

/-- The monoid tags of the data model (spec 3): min, max, plus, times, any,
the logical or, and, xor, eq, and the bitwise or, and, xor, xnor. -/
def monoidTags : List GB_Opcode :=
  [GB_MIN_opcode, GB_MAX_opcode, GB_PLUS_opcode, GB_TIMES_opcode, GB_ANY_opcode,
   GB_LOR_opcode, GB_LAND_opcode, GB_LXOR_opcode, GB_EQ_opcode,
   GB_BOR_opcode, GB_BAND_opcode, GB_BXOR_opcode, GB_BXNOR_opcode]

/-- The 13 type tags. -/
def typeTags : List GB_Type_code :=
  [GB_BOOL_code, GB_INT8_code, GB_UINT8_code, GB_INT16_code, GB_UINT16_code,
   GB_INT32_code, GB_UINT32_code, GB_INT64_code, GB_UINT64_code, GB_FP32_code,
   GB_FP64_code, GB_FC32_code, GB_FC64_code]

/-- All pairs of a monoid tag and a type tag. -/
def monoidTypePairs : List (GB_Opcode × GB_Type_code) :=
  monoidTags.flatMap fun a => typeTags.map fun t => (a, t)

/-- Whether the outcome is a kernel. -/
def Outcome.isMatched : Outcome → Bool
  | .matched _ => true
  | _ => false

/-- The (monoid, type) pairs for which the template returns a kernel when
X = Y = Z = type. -/
def semirings (GB_DEBUG : Bool) (mult_opcode : GB_Opcode) : List (GB_Opcode × GB_Type_code) :=
  monoidTypePairs.filter fun p =>
    (GB_AxB_factory GB_DEBUG mult_opcode p.1 p.2 p.2 p.2).isMatched

/-- The (monoid, operand type) pairs for which the template returns a kernel
when X = Y = operand type and Z is boolean. -/
def compareSemirings (GB_DEBUG : Bool) (mult_opcode : GB_Opcode) :
    List (GB_Opcode × GB_Type_code) :=
  monoidTypePairs.filter fun p =>
    (GB_AxB_factory GB_DEBUG mult_opcode p.1 p.2 p.2 GB_BOOL_code).isMatched

/-- The (monoid, output type) pairs for which the template returns a kernel
at the operand types `xcode`, `ycode`. -/
def positionalSemirings (GB_DEBUG : Bool) (mult_opcode : GB_Opcode)
    (xcode ycode : GB_Type_code) : List (GB_Opcode × GB_Type_code) :=
  monoidTypePairs.filter fun p =>
    (GB_AxB_factory GB_DEBUG mult_opcode p.1 xcode ycode p.2).isMatched


/-- The flag `GB_MULT_IS_PAIR_OPERATOR` in effect for `mult_opcode` (false when
no case is selected). -/
def multIsPairOperator (mult_opcode : GB_Opcode) : Bool :=
  match selectCase mult_opcode with
  | some c => c.GB_MULT_IS_PAIR_OPERATOR
  | none => false

/-- Result type of the multiply operator of a kernel, after the header comment
of `GB_AxB_factory.c`: the compare factory handles the operators TxT -> bool;
for the other factories (TxT -> T, and the positional operators with their
integer output) it is the type the kernel is specialised for. -/
def Kernel.ztype (k : Kernel) : GB_Type_code :=
  match GB_AxB_factory_cases.find? (fun c => c.GB_MNAME == k.mult) with
  | some c => if c.factory = .GB_AxB_compare_factory then GB_BOOL_code else k.type
  | none => k.type

/-! ## The boolean equivalences of the case comments -/

/-- The operator a case comment names as the boolean equivalent of its tag:
"MIN == TIMES == AND", "MAX == PLUS == OR",
"MINUS == RMINUS == NE == ISNE == XOR", "FIRST == DIV", "SECOND == RDIV",
"ISEQ == EQ", "ISGT == GT", "ISLT == LT", "ISGE == GE", "ISLE == LE". -/
def booleanEquivalent : GB_Opcode → Option GB_Opcode
  | GB_MIN_opcode | GB_TIMES_opcode => some GB_LAND_opcode
  | GB_MAX_opcode | GB_PLUS_opcode => some GB_LOR_opcode
  | GB_MINUS_opcode | GB_RMINUS_opcode | GB_ISNE_opcode | GB_NE_opcode => some GB_LXOR_opcode
  | GB_DIV_opcode => some GB_FIRST_opcode
  | GB_RDIV_opcode => some GB_SECOND_opcode
  | GB_ISEQ_opcode => some GB_EQ_opcode
  | GB_ISGT_opcode => some GB_GT_opcode
  | GB_ISLT_opcode => some GB_LT_opcode
  | GB_ISGE_opcode => some GB_GE_opcode
  | GB_ISLE_opcode => some GB_LE_opcode
  | _ => none

/-- The multiply operators as the case comments write them (`z = x`,
`z = min(x,y)`, `z = x + y`, `z = (x != y)`, `z = x || y`, ...), on C
integers; a comparison or logical operator yields 1 or 0.  Division, the
bitwise and the positional operators are not evaluated here. -/
def multOp : GB_Opcode → Option (Int → Int → Int)
  | GB_FIRST_opcode => some fun x _ => x
  | GB_SECOND_opcode => some fun _ y => y
  | GB_PAIR_opcode => some fun _ _ => 1
  | GB_MIN_opcode => some fun x y => min x y
  | GB_MAX_opcode => some fun x y => max x y
  | GB_PLUS_opcode => some fun x y => x + y
  | GB_MINUS_opcode => some fun x y => x - y
  | GB_RMINUS_opcode => some fun x y => y - x
  | GB_TIMES_opcode => some fun x y => x * y
  | GB_ISEQ_opcode | GB_EQ_opcode => some fun x y => if x = y then 1 else 0
  | GB_ISNE_opcode | GB_NE_opcode => some fun x y => if x ≠ y then 1 else 0
  | GB_ISGT_opcode | GB_GT_opcode => some fun x y => if x > y then 1 else 0
  | GB_ISLT_opcode | GB_LT_opcode => some fun x y => if x < y then 1 else 0
  | GB_ISGE_opcode | GB_GE_opcode => some fun x y => if x ≥ y then 1 else 0
  | GB_ISLE_opcode | GB_LE_opcode => some fun x y => if x ≤ y then 1 else 0
  | GB_LOR_opcode => some fun x y => if x ≠ 0 ∨ y ≠ 0 then 1 else 0
  | GB_LAND_opcode => some fun x y => if x ≠ 0 ∧ y ≠ 0 then 1 else 0
  | GB_LXOR_opcode => some fun x y => if x ≠ y then 1 else 0
  | _ => none

/-- A boolean as the C integer 0 or 1. -/
def boolToInt (b : Bool) : Int := if b then 1 else 0

/-- The multiply operator over the boolean domain: the operands are 0 or 1,
the result `z` is read back as the boolean `z != 0`. -/
def boolOp (op : GB_Opcode) (x y : Bool) : Option Bool :=
  (multOp op).map fun f => decide (f (boolToInt x) (boolToInt y) ≠ 0)

/-- The eleven multiply tags whose boolean case is generated. -/
def booleanTags : List GB_Opcode :=
  [GB_FIRST_opcode, GB_SECOND_opcode, GB_PAIR_opcode, GB_LOR_opcode, GB_LAND_opcode,
   GB_LXOR_opcode, GB_EQ_opcode, GB_GT_opcode, GB_LT_opcode, GB_GE_opcode, GB_LE_opcode]

/-! ## Auxiliary lemmas -/

theorem ofOption_ne_assertion_failed (o : Option Kernel) :
    Outcome.ofOption o ≠ .assertion_failed := by
  cases o <;> simp [Outcome.ofOption]

theorem ofOption_eq_matched (o : Option Kernel) (k : Kernel) :
    Outcome.ofOption o = .matched k ↔ o = some k := by
  cases o <;> simp [Outcome.ofOption]

theorem ofOption_eq_unmatched (o : Option Kernel) :
    Outcome.ofOption o = .unmatched ↔ o = none := by
  cases o <;> simp [Outcome.ofOption]

theorem selectCase_other (k : Nat) : selectCase (GB_other_opcode k) = none := rfl

theorem selectCase_any : selectCase GB_ANY_opcode = none := rfl

theorem other_not_mem_switchLabels (k : Nat) : GB_other_opcode k ∉ switchLabels := by
  simp [switchLabels, GB_AxB_factory_cases]

/-- The `default` case is reached exactly by the tags that label no `case`. -/
theorem selectCase_eq_none_iff (op : GB_Opcode) :
    selectCase op = none ↔ op ∉ switchLabels := by
  simp only [selectCase, switchLabels, List.find?_eq_none, List.mem_flatMap, decide_eq_true_eq,
    not_exists, not_and]

/-- A selected case is an entry of the table and carries the label. -/
theorem selectCase_some {op : GB_Opcode} {c : SwitchCase} (h : selectCase op = some c) :
    c ∈ GB_AxB_factory_cases ∧ op ∈ c.labels := by
  unfold selectCase at h
  exact ⟨List.mem_of_find?_eq_some h, by simpa using List.find?_some h⟩

/-- With the assertion out of the way the template is the switch. -/
theorem factory_with_eq_switch (inc : Include → FactoryBody) (dbg : Bool)
    (op add : GB_Opcode) (x y z : GB_Type_code) (h : ¬ (dbg = true ∧ op = GB_ANY_opcode)) :
    GB_AxB_factory_with inc dbg op add x y z =
      match selectCase op with
      | some c => Outcome.ofOption (inc c.factory c add x y z)
      | none => .unmatched := by
  unfold GB_AxB_factory_with
  rw [if_neg h]

/-- A matched outcome comes from the selected case running its factory. -/
theorem factory_with_matched {inc : Include → FactoryBody} {dbg : Bool}
    {op add : GB_Opcode} {x y z : GB_Type_code} {k : Kernel}
    (h : GB_AxB_factory_with inc dbg op add x y z = .matched k) :
    ∃ c, selectCase op = some c ∧ inc c.factory c add x y z = some k := by
  unfold GB_AxB_factory_with at h
  split_ifs at h
  cases hc : selectCase op with
  | none => rw [hc] at h; cases h
  | some c =>
    rw [hc] at h
    exact ⟨c, rfl, (ofOption_eq_matched _ _).1 h⟩

/-- A kernel found by the type factory is the worker of the monoid, the
case name and `xcode`. -/
theorem type_factory_some {c : SwitchCase} {add : GB_Opcode} {x y z : GB_Type_code} {k : Kernel}
    (h : GB_AxB_type_factory c add x y z = some k) : k = ⟨add, c.GB_MNAME, x⟩ := by
  unfold GB_AxB_type_factory at h
  repeat' split at h
  all_goals cases h <;> rfl

/-- Under `GB_NO_BOOLEAN` the type factory has no boolean kernel. -/
theorem type_factory_no_boolean (c : SwitchCase) (add : GB_Opcode) (y z : GB_Type_code)
    (h : c.GB_NO_BOOLEAN = true) : GB_AxB_type_factory c add GB_BOOL_code y z = none := by
  unfold GB_AxB_type_factory
  simp [isRealNonBool, h]

theorem compare_factory_some {c : SwitchCase} {add : GB_Opcode} {x y z : GB_Type_code} {k : Kernel}
    (h : GB_AxB_compare_factory c add x y z = some k) :
    k = ⟨add, c.GB_MNAME, x⟩ ∧ isComplex x = false := by
  unfold GB_AxB_compare_factory at h
  repeat' split at h
  all_goals cases h <;> simp_all

theorem bitwise_factory_some {c : SwitchCase} {add : GB_Opcode} {x y z : GB_Type_code} {k : Kernel}
    (h : GB_AxB_bitwise_factory c add x y z = some k) :
    k = ⟨add, c.GB_MNAME, x⟩ ∧ isUnsigned x = true := by
  unfold GB_AxB_bitwise_factory at h
  repeat' split at h
  all_goals cases h <;> simp_all

theorem positional_factory_some {c : SwitchCase} {add : GB_Opcode} {x y z : GB_Type_code}
    {k : Kernel} (h : GB_AxB_positional_factory c add x y z = some k) :
    k = ⟨add, c.GB_MNAME, z⟩ ∧ (z = GB_INT32_code ∨ z = GB_INT64_code) := by
  unfold GB_AxB_positional_factory at h
  repeat' split at h
  all_goals cases h <;> simp_all

theorem type_factory_complex {c : SwitchCase} {add : GB_Opcode} {x y z : GB_Type_code} {k : Kernel}
    (hx : isComplex x = true)
    (h : GB_AxB_type_factory c add x y z = some k) :
    c.GB_COMPLEX = true ∧ (add = GB_PLUS_opcode ∨ add = GB_TIMES_opcode ∨ add = GB_ANY_opcode) := by
  have h1 : isRealNonBool x = false := by cases x <;> simp_all [isComplex, isRealNonBool]
  have h2 : x ≠ GB_BOOL_code := by cases x <;> simp_all [isComplex]
  unfold GB_AxB_type_factory at h
  rw [h1] at h
  simp only [Bool.false_eq_true, if_false, h2] at h
  repeat' split at h
  all_goals cases h <;> simp_all

theorem includedFactory_mult {f : Include} {c : SwitchCase} {add : GB_Opcode}
    {x y z : GB_Type_code} {k : Kernel} (h : includedFactory f c add x y z = some k) :
    k.add = add ∧ k.mult = c.GB_MNAME := by
  cases f
  · have h1 : GB_AxB_type_factory c add x y z = some k := h
    rw [type_factory_some h1]; exact ⟨rfl, rfl⟩
  · have h1 : GB_AxB_compare_factory c add x y z = some k := h
    rw [(compare_factory_some h1).1]; exact ⟨rfl, rfl⟩
  · have h1 : GB_AxB_bitwise_factory c add x y z = some k := h
    rw [(bitwise_factory_some h1).1]; exact ⟨rfl, rfl⟩
  · have h1 : GB_AxB_positional_factory c add x y z = some k := h
    rw [(positional_factory_some h1).1]; exact ⟨rfl, rfl⟩

theorem includedFactory_complex {f : Include} {c : SwitchCase} {add : GB_Opcode}
    {x y z : GB_Type_code} {k : Kernel} (hx : isComplex x = true) (hz : isComplex z = true)
    (h : includedFactory f c add x y z = some k) :
    f = .GB_AxB_type_factory ∧ c.GB_COMPLEX = true ∧
      (add = GB_PLUS_opcode ∨ add = GB_TIMES_opcode ∨ add = GB_ANY_opcode) := by
  cases f
  · have h1 : GB_AxB_type_factory c add x y z = some k := h
    exact ⟨rfl, type_factory_complex hx h1⟩
  · have h1 : GB_AxB_compare_factory c add x y z = some k := h
    have := (compare_factory_some h1).2
    rw [hx] at this; cases this
  · have h1 : GB_AxB_bitwise_factory c add x y z = some k := h
    have := (bitwise_factory_some h1).2
    cases x <;> simp_all [isComplex, isUnsigned]
  · have h1 : GB_AxB_positional_factory c add x y z = some k := h
    have := (positional_factory_some h1).2
    cases z <;> simp_all [isComplex]

/-- No two `case` groups define the same `GB_MNAME`. -/
theorem mname_nodup : (GB_AxB_factory_cases.map SwitchCase.GB_MNAME).Nodup := by decide

/-- Two labels of one `case` are equal or one of the two alias pairs. -/
theorem labels_alias : ∀ c ∈ GB_AxB_factory_cases, ∀ a ∈ c.labels, ∀ b ∈ c.labels,
    a = b ∨ aliasPair a b := by decide

/-- An outcome is matched when it carries a kernel. -/
theorem isMatched_iff (o : Outcome) : o.isMatched = true ↔ ∃ k, o = .matched k := by
  cases o <;> simp [Outcome.isMatched]

/-- Matched outcomes of an optional kernel. -/
theorem isMatched_ofOption (o : Option Kernel) : (Outcome.ofOption o).isMatched = o.isSome := by
  cases o <;> rfl

/-- The template's outcome for a tag with a `case` is the outcome of the
factory that case includes. -/
theorem factory_eq_of_selectCase (dbg : Bool) {op : GB_Opcode} (add : GB_Opcode)
    (x y z : GB_Type_code) {c : SwitchCase} (hc : selectCase op = some c) :
    GB_AxB_factory dbg op add x y z =
      Outcome.ofOption (includedFactory c.factory c add x y z) := by
  have hany : op ≠ GB_ANY_opcode := by
    intro h
    rw [h, selectCase_any] at hc
    cases hc
  unfold GB_AxB_factory
  rw [factory_with_eq_switch includedFactory dbg op add x y z (fun h => hany h.2), hc]

/-- The positional factory finds a kernel for five monoids and two output types. -/
theorem positional_factory_iff (c : SwitchCase) (add : GB_Opcode) (x y z : GB_Type_code) :
    (∃ k, GB_AxB_positional_factory c add x y z = some k) ↔
      add ∈ [GB_MIN_opcode, GB_MAX_opcode, GB_PLUS_opcode, GB_TIMES_opcode, GB_ANY_opcode] ∧
      (z = GB_INT32_code ∨ z = GB_INT64_code) := by
  unfold GB_AxB_positional_factory
  split
  · split <;> simp_all
  · simp_all

/-- The bitwise factory finds a kernel for four monoids and the unsigned types. -/
theorem bitwise_factory_iff (c : SwitchCase) (add : GB_Opcode) (x y z : GB_Type_code) :
    (∃ k, GB_AxB_bitwise_factory c add x y z = some k) ↔
      add ∈ [GB_BOR_opcode, GB_BAND_opcode, GB_BXOR_opcode, GB_BXNOR_opcode] ∧
      isUnsigned x = true := by
  unfold GB_AxB_bitwise_factory
  split
  · split <;> simp_all
  · simp_all

/-- The compare factory finds a kernel for five monoids and the admitted real operand types. -/
theorem compare_factory_iff (c : SwitchCase) (add : GB_Opcode) (x y z : GB_Type_code) :
    (∃ k, GB_AxB_compare_factory c add x y z = some k) ↔
      add ∈ [GB_LOR_opcode, GB_LAND_opcode, GB_LXOR_opcode, GB_EQ_opcode, GB_ANY_opcode] ∧
      isComplex x = false ∧ ¬ (x = GB_BOOL_code ∧ c.GB_NO_BOOLEAN = true) := by
  unfold GB_AxB_compare_factory
  split
  · simp_all
  · split
    · simp_all
    · split <;> simp_all

/-- The type factory finds a kernel exactly in its three type domains. -/
theorem type_factory_iff (c : SwitchCase) (add : GB_Opcode) (x y z : GB_Type_code) :
    (∃ k, GB_AxB_type_factory c add x y z = some k) ↔
      (isRealNonBool x = true ∧
        (add ∈ [GB_PLUS_opcode, GB_ANY_opcode] ∨
          (c.GB_MULT_IS_PAIR_OPERATOR = false ∧
            add ∈ [GB_MIN_opcode, GB_MAX_opcode, GB_TIMES_opcode]))) ∨
      (x = GB_BOOL_code ∧ c.GB_NO_BOOLEAN = false ∧
        (add ∈ [GB_LXOR_opcode, GB_ANY_opcode] ∨
          (c.GB_MULT_IS_PAIR_OPERATOR = false ∧
            add ∈ [GB_LOR_opcode, GB_LAND_opcode, GB_EQ_opcode]))) ∨
      (isComplex x = true ∧ c.GB_COMPLEX = true ∧
        (add ∈ [GB_PLUS_opcode, GB_ANY_opcode] ∨
          (c.GB_MULT_IS_PAIR_OPERATOR = false ∧ add = GB_TIMES_opcode))) := by
  have hx : (isRealNonBool x = true ∧ x ≠ GB_BOOL_code ∧ isComplex x = false) ∨
      (isRealNonBool x = false ∧ x = GB_BOOL_code ∧ isComplex x = false) ∨
      (isRealNonBool x = false ∧ x ≠ GB_BOOL_code ∧ isComplex x = true) := by
    cases x <;> simp [isRealNonBool, isComplex]
  unfold GB_AxB_type_factory
  rcases hx with ⟨h1, h2, h3⟩ | ⟨h1, h2, h3⟩ | ⟨h1, h2, h3⟩
  · simp only [h1, h2, h3, if_true]
    split <;> simp_all
  · subst h2
    simp only [h1, h3]
    cases hb : c.GB_NO_BOOLEAN
    · simp only [Bool.false_eq_true, if_false, if_true]
      split <;> simp_all
    · simp
  · simp only [h1, h2, h3, Bool.false_eq_true, if_false]
    cases hb : c.GB_COMPLEX
    · simp
    · simp only [if_true]
      split <;> simp_all

/-- The accessors read the macros of the selected case. -/
theorem accessors_of_selectCase {op : GB_Opcode} {c : SwitchCase} (hc : selectCase op = some c) :
    factoryOf op = some c.factory ∧ excludeBoolean op = c.GB_NO_BOOLEAN ∧
    complexEligible op = c.GB_COMPLEX ∧ multIsPairOperator op = c.GB_MULT_IS_PAIR_OPERATOR ∧
    mnameOf op = some c.GB_MNAME := by
  simp [factoryOf, excludeBoolean, complexEligible, multIsPairOperator, mnameOf, hc]

/-- A tag with a factory has a selected case. -/
theorem selectCase_of_factoryOf {op : GB_Opcode} {f : Include} (h : factoryOf op = some f) :
    ∃ c, selectCase op = some c ∧ c.factory = f := by
  unfold factoryOf at h
  cases hc : selectCase op with
  | none => rw [hc] at h; cases h
  | some c =>
    rw [hc] at h
    exact ⟨c, rfl, Option.some.inj h⟩

/-- A kernel is returned exactly when the included factory finds one. -/
theorem matched_iff_of_selectCase (dbg : Bool) {op : GB_Opcode} (add : GB_Opcode)
    (x y z : GB_Type_code) {c : SwitchCase} (hc : selectCase op = some c) :
    (∃ k, GB_AxB_factory dbg op add x y z = .matched k) ↔
      ∃ k, includedFactory c.factory c add x y z = some k := by
  rw [factory_eq_of_selectCase dbg add x y z hc]
  simp only [ofOption_eq_matched]

/-- For a tag with a case, no kernel means unmatched. -/
theorem unmatched_of_selectCase (dbg : Bool) {op : GB_Opcode} (add : GB_Opcode)
    (x y z : GB_Type_code) {c : SwitchCase} (hc : selectCase op = some c)
    (h : ¬ ∃ k, GB_AxB_factory dbg op add x y z = .matched k) :
    GB_AxB_factory dbg op add x y z = .unmatched := by
  rw [factory_eq_of_selectCase dbg add x y z hc] at h ⊢
  cases ho : includedFactory c.factory c add x y z with
  | none => rfl
  | some k => exact absurd ⟨k, by rw [ho]; rfl⟩ h

/-- Kernels of the type-factory tags, in terms of the flags of the tag. -/
theorem type_family_matched_iff (dbg : Bool) (op add : GB_Opcode) (x y z : GB_Type_code)
    (hf : factoryOf op = some .GB_AxB_type_factory) :
    (∃ k, GB_AxB_factory dbg op add x y z = .matched k) ↔
      (isRealNonBool x = true ∧
        (add ∈ [GB_PLUS_opcode, GB_ANY_opcode] ∨
          (multIsPairOperator op = false ∧
            add ∈ [GB_MIN_opcode, GB_MAX_opcode, GB_TIMES_opcode]))) ∨
      (x = GB_BOOL_code ∧ excludeBoolean op = false ∧
        (add ∈ [GB_LXOR_opcode, GB_ANY_opcode] ∨
          (multIsPairOperator op = false ∧
            add ∈ [GB_LOR_opcode, GB_LAND_opcode, GB_EQ_opcode]))) ∨
      (isComplex x = true ∧ complexEligible op = true ∧
        (add ∈ [GB_PLUS_opcode, GB_ANY_opcode] ∨
          (multIsPairOperator op = false ∧ add = GB_TIMES_opcode))) := by
  obtain ⟨c, hc, hcf⟩ := selectCase_of_factoryOf hf
  obtain ⟨-, h2, h3, h4, -⟩ := accessors_of_selectCase hc
  rw [matched_iff_of_selectCase dbg add x y z hc, hcf, h2, h3, h4]
  exact type_factory_iff c add x y z

/-- Kernels of the type-factory tags other than PAIR. -/
theorem type_family_matched_iff_nopair (dbg : Bool) (op add : GB_Opcode) (x y z : GB_Type_code)
    (hf : factoryOf op = some .GB_AxB_type_factory) (hp : multIsPairOperator op = false) :
    (∃ k, GB_AxB_factory dbg op add x y z = .matched k) ↔
      (isRealNonBool x = true ∧
        add ∈ [GB_MIN_opcode, GB_MAX_opcode, GB_PLUS_opcode, GB_TIMES_opcode, GB_ANY_opcode]) ∨
      (x = GB_BOOL_code ∧ excludeBoolean op = false ∧
        add ∈ [GB_LOR_opcode, GB_LAND_opcode, GB_LXOR_opcode, GB_EQ_opcode, GB_ANY_opcode]) ∨
      (isComplex x = true ∧ complexEligible op = true ∧
        add ∈ [GB_PLUS_opcode, GB_TIMES_opcode, GB_ANY_opcode]) := by
  have e1 : (add ∈ [GB_PLUS_opcode, GB_ANY_opcode] ∨
      add ∈ [GB_MIN_opcode, GB_MAX_opcode, GB_TIMES_opcode]) ↔
      add ∈ [GB_MIN_opcode, GB_MAX_opcode, GB_PLUS_opcode, GB_TIMES_opcode, GB_ANY_opcode] := by
    cases add <;> simp
  have e2 : (add ∈ [GB_LXOR_opcode, GB_ANY_opcode] ∨
      add ∈ [GB_LOR_opcode, GB_LAND_opcode, GB_EQ_opcode]) ↔
      add ∈ [GB_LOR_opcode, GB_LAND_opcode, GB_LXOR_opcode, GB_EQ_opcode, GB_ANY_opcode] := by
    cases add <;> simp
  have e3 : (add ∈ [GB_PLUS_opcode, GB_ANY_opcode] ∨ add = GB_TIMES_opcode) ↔
      add ∈ [GB_PLUS_opcode, GB_TIMES_opcode, GB_ANY_opcode] := by
    cases add <;> simp
  rw [type_family_matched_iff dbg op add x y z hf, hp]
  simp only [true_and]
  rw [e1, e2, e3]

/-- Kernels of the compare-factory tags. -/
theorem compare_family_matched_iff (dbg : Bool) (op add : GB_Opcode) (x y z : GB_Type_code)
    (hf : factoryOf op = some .GB_AxB_compare_factory) :
    (∃ k, GB_AxB_factory dbg op add x y z = .matched k) ↔
      add ∈ [GB_LOR_opcode, GB_LAND_opcode, GB_LXOR_opcode, GB_EQ_opcode, GB_ANY_opcode] ∧
      isComplex x = false ∧ ¬ (x = GB_BOOL_code ∧ excludeBoolean op = true) := by
  obtain ⟨c, hc, hcf⟩ := selectCase_of_factoryOf hf
  obtain ⟨-, h2, -⟩ := accessors_of_selectCase hc
  rw [matched_iff_of_selectCase dbg add x y z hc, hcf, h2]
  exact compare_factory_iff c add x y z

/-- Kernels of the bitwise-factory tags. -/
theorem bitwise_family_matched_iff (dbg : Bool) (op add : GB_Opcode) (x y z : GB_Type_code)
    (hf : factoryOf op = some .GB_AxB_bitwise_factory) :
    (∃ k, GB_AxB_factory dbg op add x y z = .matched k) ↔
      add ∈ [GB_BOR_opcode, GB_BAND_opcode, GB_BXOR_opcode, GB_BXNOR_opcode] ∧
      isUnsigned x = true := by
  obtain ⟨c, hc, hcf⟩ := selectCase_of_factoryOf hf
  rw [matched_iff_of_selectCase dbg add x y z hc, hcf]
  exact bitwise_factory_iff c add x y z

/-- Kernels of the positional-factory tags. -/
theorem positional_family_matched_iff (dbg : Bool) (op add : GB_Opcode) (x y z : GB_Type_code)
    (hf : factoryOf op = some .GB_AxB_positional_factory) :
    (∃ k, GB_AxB_factory dbg op add x y z = .matched k) ↔
      add ∈ [GB_MIN_opcode, GB_MAX_opcode, GB_PLUS_opcode, GB_TIMES_opcode, GB_ANY_opcode] ∧
      (z = GB_INT32_code ∨ z = GB_INT64_code) := by
  obtain ⟨c, hc, hcf⟩ := selectCase_of_factoryOf hf
  rw [matched_iff_of_selectCase dbg add x y z hc, hcf]
  exact positional_factory_iff c add x y z

/-- The positional factory does not look at the operand types. -/
theorem positional_family_operand_indep (dbg : Bool) (op add : GB_Opcode)
    (x y x1 y1 z : GB_Type_code) (hf : factoryOf op = some .GB_AxB_positional_factory) :
    GB_AxB_factory dbg op add x y z = GB_AxB_factory dbg op add x1 y1 z := by
  obtain ⟨c, hc, hcf⟩ := selectCase_of_factoryOf hf
  rw [factory_eq_of_selectCase dbg add x y z hc, factory_eq_of_selectCase dbg add x1 y1 z hc, hcf]
  rfl

/-- Every monoid that is bound to a kernel is one of the 13 monoid tags. -/
theorem matched_add_mem_monoidTags {dbg : Bool} {op add : GB_Opcode} {x y z : GB_Type_code}
    {k : Kernel} (h : GB_AxB_factory dbg op add x y z = .matched k) : add ∈ monoidTags := by
  obtain ⟨c, hc, hk⟩ := factory_with_matched h
  obtain ⟨hf, -⟩ := accessors_of_selectCase hc
  have hm := (matched_iff_of_selectCase dbg add x y z hc).2 ⟨k, hk⟩
  have sub : ∀ L : List GB_Opcode, (∀ a ∈ L, a ∈ monoidTags) → add ∈ L → add ∈ monoidTags :=
    fun L hL ha => hL _ ha
  cases hcf : c.factory <;> rw [hcf] at hf
  · have := (type_family_matched_iff dbg op add x y z hf).1 hm
    rcases this with ⟨-, h | ⟨-, h⟩⟩ | ⟨-, -, h | ⟨-, h⟩⟩ | ⟨-, -, h | ⟨-, h⟩⟩ <;>
      first
      | exact sub _ (by decide) h
      | (subst h; decide)
  · exact sub _ (by decide) ((compare_family_matched_iff dbg op add x y z hf).1 hm).1
  · exact sub _ (by decide) ((bitwise_family_matched_iff dbg op add x y z hf).1 hm).1
  · exact sub _ (by decide) ((positional_family_matched_iff dbg op add x y z hf).1 hm).1

/-! ## C1: classification of the multiply tag -/

/-- C1: the switch hands each multiply tag to the factory the specification
names: the factory included for a tag is the type factory exactly for the 20
tags of the type family, the compare factory exactly for EQ, NE, GT, LT, GE,
LE, the bitwise factory exactly for BOR, BAND, BXOR, BXNOR, and the positional
factory exactly for the 8 positional tags.  Each of these 38 tags labels
exactly one `case`, no tag at all labels two, and the template's outcome for a
tag with a `case` is the outcome of the one factory that case includes. -/
theorem C1_classification :
    (∀ op, factoryOf op = some .GB_AxB_type_factory ↔ op ∈ typeFamily) ∧
    (∀ op, factoryOf op = some .GB_AxB_compare_factory ↔ op ∈ compareFamily) ∧
    (∀ op, factoryOf op = some .GB_AxB_bitwise_factory ↔ op ∈ bitwiseFamily) ∧
    (∀ op, factoryOf op = some .GB_AxB_positional_factory ↔ op ∈ positionalFamily) ∧
    (∀ op, op ∈ typeFamily ++ compareFamily ++ bitwiseFamily ++ positionalFamily →
      handlers op = 1) ∧
    (∀ op, handlers op ≤ 1) ∧
    (∀ (inc : Include → FactoryBody) (dbg : Bool) (op add : GB_Opcode)
        (x y z : GB_Type_code) (c : SwitchCase), selectCase op = some c →
      factoryOf op = some c.factory ∧
      GB_AxB_factory_with inc dbg op add x y z =
        Outcome.ofOption (inc c.factory c add x y z)) := by
  refine ⟨?_, ?_, ?_, ?_, ?_, ?_, ?_⟩
  case refine_7 =>
    intro inc dbg op add x y z c hc
    have hany : op ≠ GB_ANY_opcode := by
      intro h
      rw [h, selectCase_any] at hc
      cases hc
    refine ⟨by simp [factoryOf, hc], ?_⟩
    rw [factory_with_eq_switch inc dbg op add x y z (fun h => hany h.2), hc]
  all_goals
    intro op
    cases op <;>
      first
      | decide
      | simp [factoryOf, selectCase_other, handlers, GB_AxB_factory_cases, typeFamily,
          compareFamily, bitwiseFamily, positionalFamily]

/-- Witness for C1 at the tag LXOR. -/
theorem C1_classification_witness :
    factoryOf GB_LXOR_opcode = some .GB_AxB_type_factory ∧ handlers GB_LXOR_opcode = 1 :=
  ⟨(C1_classification.1 GB_LXOR_opcode).2 (by decide),
   C1_classification.2.2.2.2.1 GB_LXOR_opcode (by decide)⟩

/-! ## C2: the boolean collapsing law at this layer -/

/-- C2, as amended: for the boolean type, of each collapsing class only the
logical member is bound to a kernel by the template: (and, LAND), (or, LOR)
and (xor, LXOR) are matched, with the kernels named by `_land`, `_lor`,
`_lxor`, while (min, MIN) and (min, TIMES), (max, MAX) and (max, PLUS),
(any, MINUS), (any, RMINUS) and (any, NE) all end unmatched. -/
theorem C2_boolean_classes (dbg : Bool) :
    (GB_AxB_factory dbg GB_MIN_opcode GB_MIN_opcode GB_BOOL_code GB_BOOL_code GB_BOOL_code
        = .unmatched ∧
      GB_AxB_factory dbg GB_TIMES_opcode GB_MIN_opcode GB_BOOL_code GB_BOOL_code GB_BOOL_code
        = .unmatched ∧
      GB_AxB_factory dbg GB_LAND_opcode GB_LAND_opcode GB_BOOL_code GB_BOOL_code GB_BOOL_code
        = .matched ⟨GB_LAND_opcode, "_land", GB_BOOL_code⟩) ∧
    (GB_AxB_factory dbg GB_MAX_opcode GB_MAX_opcode GB_BOOL_code GB_BOOL_code GB_BOOL_code
        = .unmatched ∧
      GB_AxB_factory dbg GB_PLUS_opcode GB_MAX_opcode GB_BOOL_code GB_BOOL_code GB_BOOL_code
        = .unmatched ∧
      GB_AxB_factory dbg GB_LOR_opcode GB_LOR_opcode GB_BOOL_code GB_BOOL_code GB_BOOL_code
        = .matched ⟨GB_LOR_opcode, "_lor", GB_BOOL_code⟩) ∧
    (GB_AxB_factory dbg GB_MINUS_opcode GB_ANY_opcode GB_BOOL_code GB_BOOL_code GB_BOOL_code
        = .unmatched ∧
      GB_AxB_factory dbg GB_RMINUS_opcode GB_ANY_opcode GB_BOOL_code GB_BOOL_code GB_BOOL_code
        = .unmatched ∧
      GB_AxB_factory dbg GB_NE_opcode GB_ANY_opcode GB_BOOL_code GB_BOOL_code GB_BOOL_code
        = .unmatched ∧
      GB_AxB_factory dbg GB_LXOR_opcode GB_LXOR_opcode GB_BOOL_code GB_BOOL_code GB_BOOL_code
        = .matched ⟨GB_LXOR_opcode, "_lxor", GB_BOOL_code⟩) := by
  cases dbg <;> decide

/-- C2 fails as stated: over the boolean type (min, MIN) and (min, TIMES) end
unmatched while (and, LAND) is matched, so the three do not return the
identical kernel. -/
theorem C2_counterexample :
    GB_AxB_factory false GB_MIN_opcode GB_MIN_opcode GB_BOOL_code GB_BOOL_code GB_BOOL_code
      = .unmatched ∧
    GB_AxB_factory false GB_TIMES_opcode GB_MIN_opcode GB_BOOL_code GB_BOOL_code GB_BOOL_code
      = .unmatched ∧
    GB_AxB_factory false GB_LAND_opcode GB_LAND_opcode GB_BOOL_code GB_BOOL_code GB_BOOL_code
      = .matched ⟨GB_LAND_opcode, "_land", GB_BOOL_code⟩ ∧
    GB_AxB_factory false GB_MIN_opcode GB_MIN_opcode GB_BOOL_code GB_BOOL_code GB_BOOL_code
      ≠ GB_AxB_factory false GB_LAND_opcode GB_LAND_opcode GB_BOOL_code GB_BOOL_code
          GB_BOOL_code := by
  decide

/-! ## C3: positional aliasing -/

/-- C3: for every monoid tag and every triple of type tags (and whatever the
included factories are), running the template with multiply tag FIRSTJ gives
the same outcome as with SECONDI, and FIRSTJ1 the same as SECONDI1. -/
theorem C3_positional_aliasing (inc : Include → FactoryBody) (dbg : Bool)
    (add : GB_Opcode) (x y z : GB_Type_code) :
    GB_AxB_factory_with inc dbg GB_FIRSTJ_opcode add x y z =
      GB_AxB_factory_with inc dbg GB_SECONDI_opcode add x y z ∧
    GB_AxB_factory_with inc dbg GB_FIRSTJ1_opcode add x y z =
      GB_AxB_factory_with inc dbg GB_SECONDI1_opcode add x y z ∧
    GB_AxB_factory dbg GB_FIRSTJ_opcode add x y z =
      GB_AxB_factory dbg GB_SECONDI_opcode add x y z ∧
    GB_AxB_factory dbg GB_FIRSTJ1_opcode add x y z =
      GB_AxB_factory dbg GB_SECONDI1_opcode add x y z := by
  have h1 : selectCase GB_FIRSTJ_opcode = selectCase GB_SECONDI_opcode := by decide
  have h2 : selectCase GB_FIRSTJ1_opcode = selectCase GB_SECONDI1_opcode := by decide
  refine ⟨?_, ?_, ?_, ?_⟩ <;> simp [GB_AxB_factory, GB_AxB_factory_with, h1, h2]

/-! ## C4: the flag `GB_COMPLEX` -/

/-- C4, as amended: `GB_COMPLEX` is in effect exactly for the multiply tags
FIRST, SECOND, PAIR, PLUS, MINUS, RMINUS, TIMES, DIV and RDIV. -/
theorem C4_complexEligible_tags (op : GB_Opcode) :
    complexEligible op = true ↔
      op ∈ [GB_FIRST_opcode, GB_SECOND_opcode, GB_PAIR_opcode, GB_PLUS_opcode,
            GB_MINUS_opcode, GB_RMINUS_opcode, GB_TIMES_opcode, GB_DIV_opcode,
            GB_RDIV_opcode] := by
  cases op <;> first | decide | simp [complexEligible, selectCase_other]

/-- C4 fails as stated: `GB_COMPLEX` is also defined in the cases of MINUS,
RMINUS, DIV and RDIV, which are not among FIRST, SECOND, PAIR, PLUS, TIMES. -/
theorem C4_counterexample :
    ¬ (∀ op, complexEligible op = true ↔
        op ∈ [GB_FIRST_opcode, GB_SECOND_opcode, GB_PAIR_opcode, GB_PLUS_opcode,
              GB_TIMES_opcode]) ∧
    complexEligible GB_MINUS_opcode = true ∧ complexEligible GB_RMINUS_opcode = true ∧
    complexEligible GB_DIV_opcode = true ∧ complexEligible GB_RDIV_opcode = true := by
  refine ⟨fun h => ?_, by decide, by decide, by decide, by decide⟩
  exact absurd ((h GB_MINUS_opcode).1 (by decide)) (by decide)

/-! ## C5: complex types -/

/-- C5: when the operand and output types are complex, a matched outcome
forces the monoid to be PLUS, TIMES or ANY, the multiply tag to be one of the
type family and to have `GB_COMPLEX` in effect (so no compare, bitwise or
positional tag, and no type-family tag without the flag, is matched); every
other monoid ends unmatched; in particular (min, PLUS) over either complex
type is unmatched. -/
theorem C5_complex_restriction :
    (∀ (dbg : Bool) (op add : GB_Opcode) (x y z : GB_Type_code) (k : Kernel),
      isComplex x = true → isComplex z = true →
      GB_AxB_factory dbg op add x y z = .matched k →
        (add = GB_PLUS_opcode ∨ add = GB_TIMES_opcode ∨ add = GB_ANY_opcode) ∧
        factoryOf op = some .GB_AxB_type_factory ∧ complexEligible op = true) ∧
    (∀ (dbg : Bool) (op add : GB_Opcode) (x y z : GB_Type_code),
      isComplex x = true → isComplex z = true →
      add ≠ GB_PLUS_opcode → add ≠ GB_TIMES_opcode → add ≠ GB_ANY_opcode →
      ¬ (dbg = true ∧ op = GB_ANY_opcode) →
      GB_AxB_factory dbg op add x y z = .unmatched) ∧
    (∀ dbg : Bool,
      GB_AxB_factory dbg GB_PLUS_opcode GB_MIN_opcode GB_FC64_code GB_FC64_code GB_FC64_code
        = .unmatched ∧
      GB_AxB_factory dbg GB_PLUS_opcode GB_MIN_opcode GB_FC32_code GB_FC32_code GB_FC32_code
        = .unmatched) := by
  have key : ∀ (dbg : Bool) (op add : GB_Opcode) (x y z : GB_Type_code) (k : Kernel),
      isComplex x = true → isComplex z = true →
      GB_AxB_factory dbg op add x y z = .matched k →
        (add = GB_PLUS_opcode ∨ add = GB_TIMES_opcode ∨ add = GB_ANY_opcode) ∧
        factoryOf op = some .GB_AxB_type_factory ∧ complexEligible op = true := by
    intro dbg op add x y z k hx hz h
    obtain ⟨c, hc, hk⟩ := factory_with_matched h
    obtain ⟨hf, hcx, hadd⟩ := includedFactory_complex hx hz hk
    exact ⟨hadd, by simp [factoryOf, hc, hf], by simp [complexEligible, hc, hcx]⟩
  refine ⟨key, ?_, fun dbg => by cases dbg <;> decide⟩
  intro dbg op add x y z hx hz h1 h2 h3 hdbg
  cases hr : GB_AxB_factory dbg op add x y z with
  | unmatched => rfl
  | matched k =>
    rcases (key dbg op add x y z k hx hz hr).1 with h | h | h
    · exact absurd h h1
    · exact absurd h h2
    · exact absurd h h3
  | assertion_failed =>
    exfalso
    unfold GB_AxB_factory at hr
    rw [factory_with_eq_switch _ _ _ _ _ _ _ hdbg] at hr
    cases hs : selectCase op with
    | none => rw [hs] at hr; cases hr
    | some c => rw [hs] at hr; exact ofOption_ne_assertion_failed _ hr

/-- Witness for C5: (monoid MIN, multiply FIRST) over FC32 is unmatched, and
the matched (monoid PLUS, multiply TIMES) over FC64 has an admitted monoid. -/
theorem C5_complex_restriction_witness :
    GB_AxB_factory true GB_FIRST_opcode GB_MIN_opcode GB_FC32_code GB_FC32_code GB_FC32_code
      = .unmatched ∧
    complexEligible GB_TIMES_opcode = true :=
  ⟨C5_complex_restriction.2.1 true GB_FIRST_opcode GB_MIN_opcode GB_FC32_code GB_FC32_code
      GB_FC32_code (by decide) (by decide) (by decide) (by decide) (by decide) (by decide),
   (C5_complex_restriction.1 false GB_TIMES_opcode GB_PLUS_opcode GB_FC64_code GB_FC64_code
      GB_FC64_code ⟨GB_PLUS_opcode, "_times", GB_FC64_code⟩ (by decide) (by decide)
      (by decide)).2.2⟩

/-! ## C6: the default case -/

/-- C6: a multiply tag that labels no `case` of the switch selects no case,
hence no factory and no kernel name, and, unless it is ANY with the assertion
compiled in, the template ends unmatched for every monoid tag and all type
tags, whatever the included factories are. -/
theorem C6_default_unmatched (inc : Include → FactoryBody) (dbg : Bool)
    (op add : GB_Opcode) (x y z : GB_Type_code) (hop : op ∉ switchLabels) :
    selectCase op = none ∧ factoryOf op = none ∧ mnameOf op = none ∧
    (¬ (dbg = true ∧ op = GB_ANY_opcode) →
      GB_AxB_factory_with inc dbg op add x y z = .unmatched ∧
      GB_AxB_factory dbg op add x y z = .unmatched) := by
  have hs : selectCase op = none := (selectCase_eq_none_iff op).2 hop
  refine ⟨hs, by simp [factoryOf, hs], by simp [mnameOf, hs], fun h => ?_⟩
  unfold GB_AxB_factory
  rw [factory_with_eq_switch inc dbg op add x y z h,
    factory_with_eq_switch includedFactory dbg op add x y z h, hs]
  exact ⟨rfl, rfl⟩

/-- Witness for C6: the tag ANY with the assertion compiled out, monoid PLUS,
type int32. -/
theorem C6_default_unmatched_witness :
    GB_ANY_opcode ∉ switchLabels ∧
    GB_AxB_factory false GB_ANY_opcode GB_PLUS_opcode GB_INT32_code GB_INT32_code
      GB_INT32_code = .unmatched :=
  ⟨by decide,
   ((C6_default_unmatched includedFactory false GB_ANY_opcode GB_PLUS_opcode GB_INT32_code
      GB_INT32_code GB_INT32_code (by decide)).2.2.2 (by decide)).2⟩

/-! ## C7: the assertion -/

/-- C7: with `ASSERT` compiled in, the template ends in the assertion failure
if and only if the multiply tag is ANY; for every other multiply tag the
assertion passes, the outcome is the one of the build without assertions, and
it is either unmatched or a matched kernel.  Without `ASSERT` the failure is
never reached. -/
theorem C7_assertion (inc : Include → FactoryBody) (op add : GB_Opcode)
    (x y z : GB_Type_code) :
    (GB_AxB_factory_with inc true op add x y z = .assertion_failed ↔ op = GB_ANY_opcode) ∧
    (op ≠ GB_ANY_opcode →
      GB_AxB_factory_with inc true op add x y z = GB_AxB_factory_with inc false op add x y z ∧
      (GB_AxB_factory_with inc true op add x y z = .unmatched ∨
        ∃ k, GB_AxB_factory_with inc true op add x y z = .matched k)) ∧
    GB_AxB_factory_with inc false op add x y z ≠ .assertion_failed := by
  have hfalse : GB_AxB_factory_with inc false op add x y z ≠ .assertion_failed := by
    rw [factory_with_eq_switch inc false op add x y z (by simp)]
    cases selectCase op with
    | none => simp
    | some c => exact ofOption_ne_assertion_failed _
  have hne : op ≠ GB_ANY_opcode →
      GB_AxB_factory_with inc true op add x y z = GB_AxB_factory_with inc false op add x y z := by
    intro h
    rw [factory_with_eq_switch inc true op add x y z (by simp [h]),
      factory_with_eq_switch inc false op add x y z (by simp)]
  refine ⟨⟨fun h => ?_, fun h => ?_⟩, fun h => ⟨hne h, ?_⟩, hfalse⟩
  · by_contra hop
    rw [hne hop] at h
    exact hfalse h
  · subst h
    simp [GB_AxB_factory_with]
  · rw [hne h]
    cases hr : GB_AxB_factory_with inc false op add x y z with
    | assertion_failed => exact absurd hr hfalse
    | unmatched => exact Or.inl rfl
    | matched k => exact Or.inr ⟨k, rfl⟩

/-- Witness for C7: the tag SECOND passes the assertion, the tag ANY does
not. -/
theorem C7_assertion_witness :
    GB_AxB_factory_with includedFactory true GB_ANY_opcode GB_PLUS_opcode GB_FP32_code
      GB_FP32_code GB_FP32_code = .assertion_failed ∧
    GB_AxB_factory_with includedFactory true GB_SECOND_opcode GB_PLUS_opcode GB_FP32_code
      GB_FP32_code GB_FP32_code =
    GB_AxB_factory_with includedFactory false GB_SECOND_opcode GB_PLUS_opcode GB_FP32_code
      GB_FP32_code GB_FP32_code :=
  ⟨(C7_assertion includedFactory GB_ANY_opcode GB_PLUS_opcode GB_FP32_code GB_FP32_code
      GB_FP32_code).1.2 rfl,
   ((C7_assertion includedFactory GB_SECOND_opcode GB_PLUS_opcode GB_FP32_code GB_FP32_code
      GB_FP32_code).2.1 (by decide)).1⟩

/-! ## C8: kernels are bound one-to-one up to the positional aliases -/

/-- C8: for two distinct multiply tags that are not one of the alias pairs
(FIRSTJ, SECONDI), (FIRSTJ1, SECONDI1), and the same monoid and type tags, two
matched outcomes never carry the same kernel.  The switch has 38 distinct
labels, and they carry exactly 36 distinct kernel names `GB_MNAME`. -/
theorem C8_kernel_binding_injective :
    (∀ (dbg : Bool) (op1 op2 add : GB_Opcode) (x y z : GB_Type_code) (k1 k2 : Kernel),
      op1 ≠ op2 → ¬ aliasPair op1 op2 →
      GB_AxB_factory dbg op1 add x y z = .matched k1 →
      GB_AxB_factory dbg op2 add x y z = .matched k2 →
      k1 ≠ k2) ∧
    switchLabels.length = 38 ∧ switchLabels.Nodup ∧
    ((switchLabels.map mnameOf).dedup).length = 36 := by
  refine ⟨?_, by decide, by decide, by decide⟩
  intro dbg op1 op2 add x y z k1 k2 hne hal h1 h2 hk
  obtain ⟨c1, hc1, hk1⟩ := factory_with_matched h1
  obtain ⟨c2, hc2, hk2⟩ := factory_with_matched h2
  have hm : c1.GB_MNAME = c2.GB_MNAME := by
    rw [← (includedFactory_mult hk1).2, ← (includedFactory_mult hk2).2, hk]
  obtain ⟨hmem1, hl1⟩ := selectCase_some hc1
  obtain ⟨hmem2, hl2⟩ := selectCase_some hc2
  have hc : c1 = c2 := List.inj_on_of_nodup_map mname_nodup hmem1 hmem2 hm
  subst hc
  rcases labels_alias c1 hmem1 op1 hl1 op2 hl2 with h | h
  · exact hne h
  · exact hal h

/-- Witness for C8: MIN and MAX over (plus, int8) are bound to different
kernels. -/
theorem C8_kernel_binding_injective_witness :
    (Kernel.mk GB_PLUS_opcode "_min" GB_INT8_code) ≠ ⟨GB_PLUS_opcode, "_max", GB_INT8_code⟩ :=
  C8_kernel_binding_injective.1 false GB_MIN_opcode GB_MAX_opcode GB_PLUS_opcode GB_INT8_code
    GB_INT8_code GB_INT8_code _ _ (by decide) (by decide) (by decide) (by decide)

/-! ## C9: scenario 1 -/

/-- C9: (monoid PLUS, multiply TIMES) with X = Y = Z = FP64 goes through the
type factory under the kernel name `_times` and is matched with the kernel of
PLUS, `_times`, FP64. -/
theorem C9_scenario_plus_times_fp64 (dbg : Bool) :
    factoryOf GB_TIMES_opcode = some .GB_AxB_type_factory ∧
    mnameOf GB_TIMES_opcode = some "_times" ∧
    GB_AxB_factory dbg GB_TIMES_opcode GB_PLUS_opcode GB_FP64_code GB_FP64_code GB_FP64_code
      = .matched ⟨GB_PLUS_opcode, "_times", GB_FP64_code⟩ := by
  cases dbg <;> decide

/-! ## C10: scenario 2 -/

/-- C10, as amended: over the boolean type with the monoid LOR, the multiply
tag EQ goes through the compare factory and is matched with the kernel of LOR,
`_eq`, bool; the multiply tag ISEQ has `GB_NO_BOOLEAN` in effect and ends
unmatched over the boolean type, for every monoid. -/
theorem C10_scenario_eq_iseq_bool (dbg : Bool) :
    factoryOf GB_EQ_opcode = some .GB_AxB_compare_factory ∧
    GB_AxB_factory dbg GB_EQ_opcode GB_LOR_opcode GB_BOOL_code GB_BOOL_code GB_BOOL_code
      = .matched ⟨GB_LOR_opcode, "_eq", GB_BOOL_code⟩ ∧
    excludeBoolean GB_ISEQ_opcode = true ∧
    (∀ add : GB_Opcode,
      GB_AxB_factory dbg GB_ISEQ_opcode add GB_BOOL_code GB_BOOL_code GB_BOOL_code
        = .unmatched) := by
  have hs : selectCase GB_ISEQ_opcode =
      some ⟨[GB_ISEQ_opcode], "_iseq", true, false, false, .GB_AxB_type_factory⟩ := by decide
  refine ⟨by decide, by cases dbg <;> decide, by decide, fun add => ?_⟩
  have hn := type_factory_no_boolean
    ⟨[GB_ISEQ_opcode], "_iseq", true, false, false, .GB_AxB_type_factory⟩ add GB_BOOL_code
    GB_BOOL_code rfl
  simp [GB_AxB_factory, GB_AxB_factory_with, hs, includedFactory, hn, Outcome.ofOption]

/-- C10 fails as stated: over the boolean type with the monoid LOR, the
multiply tag EQ is matched while ISEQ ends unmatched. -/
theorem C10_counterexample :
    GB_AxB_factory false GB_EQ_opcode GB_LOR_opcode GB_BOOL_code GB_BOOL_code GB_BOOL_code
      = .matched ⟨GB_LOR_opcode, "_eq", GB_BOOL_code⟩ ∧
    GB_AxB_factory false GB_ISEQ_opcode GB_LOR_opcode GB_BOOL_code GB_BOOL_code GB_BOOL_code
      = .unmatched ∧
    GB_AxB_factory false GB_EQ_opcode GB_LOR_opcode GB_BOOL_code GB_BOOL_code GB_BOOL_code
      ≠ GB_AxB_factory false GB_ISEQ_opcode GB_LOR_opcode GB_BOOL_code GB_BOOL_code
          GB_BOOL_code := by
  decide

/-! ## C11: scenario 3 -/

/-- C11, as amended: with the monoid ANY and the output type int64, the
multiply tags FIRSTJ and SECONDI (both `z = k`) are matched with one and the
same kernel, named `_firstj`; the tag FIRSTI (`z = i`) is matched with a
different kernel, named `_firsti`.  The operand types do not matter. -/
theorem C11_scenario_any_positional_int64 (dbg : Bool) (x y : GB_Type_code) :
    GB_AxB_factory dbg GB_FIRSTJ_opcode GB_ANY_opcode x y GB_INT64_code
      = .matched ⟨GB_ANY_opcode, "_firstj", GB_INT64_code⟩ ∧
    GB_AxB_factory dbg GB_SECONDI_opcode GB_ANY_opcode x y GB_INT64_code
      = .matched ⟨GB_ANY_opcode, "_firstj", GB_INT64_code⟩ ∧
    GB_AxB_factory dbg GB_FIRSTI_opcode GB_ANY_opcode x y GB_INT64_code
      = .matched ⟨GB_ANY_opcode, "_firsti", GB_INT64_code⟩ ∧
    GB_AxB_factory dbg GB_FIRSTI_opcode GB_ANY_opcode x y GB_INT64_code
      ≠ GB_AxB_factory dbg GB_SECONDI_opcode GB_ANY_opcode x y GB_INT64_code := by
  have h1 := positional_family_operand_indep dbg GB_FIRSTJ_opcode GB_ANY_opcode x y
    GB_INT64_code GB_INT64_code GB_INT64_code (by decide)
  have h2 := positional_family_operand_indep dbg GB_SECONDI_opcode GB_ANY_opcode x y
    GB_INT64_code GB_INT64_code GB_INT64_code (by decide)
  have h3 := positional_family_operand_indep dbg GB_FIRSTI_opcode GB_ANY_opcode x y
    GB_INT64_code GB_INT64_code GB_INT64_code (by decide)
  rw [h1, h2, h3]
  cases dbg <;> decide

/-- C11 fails as stated: with the monoid ANY and int64, FIRSTI is bound to the
kernel named `_firsti` and SECONDI to the kernel named `_firstj`. -/
theorem C11_counterexample :
    GB_AxB_factory false GB_FIRSTI_opcode GB_ANY_opcode GB_INT64_code GB_INT64_code
      GB_INT64_code = .matched ⟨GB_ANY_opcode, "_firsti", GB_INT64_code⟩ ∧
    GB_AxB_factory false GB_SECONDI_opcode GB_ANY_opcode GB_INT64_code GB_INT64_code
      GB_INT64_code = .matched ⟨GB_ANY_opcode, "_firstj", GB_INT64_code⟩ ∧
    GB_AxB_factory false GB_FIRSTI_opcode GB_ANY_opcode GB_INT64_code GB_INT64_code
      GB_INT64_code ≠
    GB_AxB_factory false GB_SECONDI_opcode GB_ANY_opcode GB_INT64_code GB_INT64_code
      GB_INT64_code := by
  decide

/-! ## C12: the positional tags -/

/-- C12: for each of the eight positional multiply tags a kernel is returned
if and only if the monoid is one of MIN, MAX, PLUS, TIMES, ANY and the output
type is int32 or int64; the outcome is the same for all operand types X and
Y; and for all operand types exactly 10 pairs (monoid, output type) are
matched. -/
theorem C12_positional :
    (∀ (dbg : Bool) (op add : GB_Opcode) (x y z : GB_Type_code), op ∈ positionalFamily →
      ((∃ k, GB_AxB_factory dbg op add x y z = .matched k) ↔
        add ∈ [GB_MIN_opcode, GB_MAX_opcode, GB_PLUS_opcode, GB_TIMES_opcode, GB_ANY_opcode] ∧
        (z = GB_INT32_code ∨ z = GB_INT64_code))) ∧
    (∀ (dbg : Bool) (op add : GB_Opcode) (x y x1 y1 z : GB_Type_code), op ∈ positionalFamily →
      GB_AxB_factory dbg op add x y z = GB_AxB_factory dbg op add x1 y1 z) ∧
    (∀ (dbg : Bool) (op : GB_Opcode) (x y : GB_Type_code), op ∈ positionalFamily →
      (positionalSemirings dbg op x y).length = 10) := by
  have hfam : ∀ op ∈ positionalFamily, factoryOf op = some .GB_AxB_positional_factory := by
    decide
  refine ⟨fun dbg op add x y z hop => positional_family_matched_iff dbg op add x y z (hfam op hop),
    fun dbg op add x y x1 y1 z hop =>
      positional_family_operand_indep dbg op add x y x1 y1 z (hfam op hop), ?_⟩
  intro dbg op x y hop
  have hxy : positionalSemirings dbg op x y =
      positionalSemirings dbg op GB_INT8_code GB_INT8_code := by
    unfold positionalSemirings
    apply List.filter_congr
    intro p _
    rw [positional_family_operand_indep dbg op p.1 x y GB_INT8_code GB_INT8_code p.2
      (hfam op hop)]
  rw [hxy]
  have hcount : ∀ d : Bool, ∀ o ∈ positionalFamily,
      (positionalSemirings d o GB_INT8_code GB_INT8_code).length = 10 := by decide
  exact hcount dbg op hop

/-- Witness for C12: SECONDJ1 at the operand types FC32 and bool. -/
theorem C12_positional_witness :
    (positionalSemirings true GB_SECONDJ1_opcode GB_FC32_code GB_BOOL_code).length = 10 ∧
    GB_AxB_factory true GB_SECONDJ1_opcode GB_MIN_opcode GB_FC32_code GB_BOOL_code
        GB_INT32_code =
      GB_AxB_factory true GB_SECONDJ1_opcode GB_MIN_opcode GB_INT8_code GB_INT8_code
        GB_INT32_code :=
  ⟨C12_positional.2.2 true GB_SECONDJ1_opcode GB_FC32_code GB_BOOL_code (by decide),
   C12_positional.2.1 true GB_SECONDJ1_opcode GB_MIN_opcode GB_FC32_code GB_BOOL_code
     GB_INT8_code GB_INT8_code GB_INT32_code (by decide)⟩

/-! ## C13: the bitwise tags -/

/-- C13: for each of the bitwise multiply tags BOR, BAND, BXOR, BXNOR a kernel
is returned if and only if the monoid is one of BOR, BAND, BXOR, BXNOR and the
type is one of uint8, uint16, uint32, uint64; that makes 16 matched pairs
(monoid, type) per tag; with a boolean, signed, floating-point or complex type
the outcome is unmatched. -/
theorem C13_bitwise :
    (∀ (dbg : Bool) (op add : GB_Opcode) (x y z : GB_Type_code), op ∈ bitwiseFamily →
      ((∃ k, GB_AxB_factory dbg op add x y z = .matched k) ↔
        add ∈ [GB_BOR_opcode, GB_BAND_opcode, GB_BXOR_opcode, GB_BXNOR_opcode] ∧
        x ∈ [GB_UINT8_code, GB_UINT16_code, GB_UINT32_code, GB_UINT64_code])) ∧
    (∀ (dbg : Bool) (op : GB_Opcode), op ∈ bitwiseFamily → (semirings dbg op).length = 16) ∧
    (∀ (dbg : Bool) (op add : GB_Opcode) (t : GB_Type_code), op ∈ bitwiseFamily →
      t ∈ [GB_BOOL_code, GB_INT8_code, GB_INT16_code, GB_INT32_code, GB_INT64_code,
           GB_FP32_code, GB_FP64_code, GB_FC32_code, GB_FC64_code] →
      GB_AxB_factory dbg op add t t t = .unmatched) := by
  have hfam : ∀ op ∈ bitwiseFamily, factoryOf op = some .GB_AxB_bitwise_factory := by decide
  have huns : ∀ t : GB_Type_code, isUnsigned t = true ↔
      t ∈ [GB_UINT8_code, GB_UINT16_code, GB_UINT32_code, GB_UINT64_code] := by
    intro t; cases t <;> simp [isUnsigned]
  have key : ∀ (dbg : Bool) (op add : GB_Opcode) (x y z : GB_Type_code), op ∈ bitwiseFamily →
      ((∃ k, GB_AxB_factory dbg op add x y z = .matched k) ↔
        add ∈ [GB_BOR_opcode, GB_BAND_opcode, GB_BXOR_opcode, GB_BXNOR_opcode] ∧
        x ∈ [GB_UINT8_code, GB_UINT16_code, GB_UINT32_code, GB_UINT64_code]) := by
    intro dbg op add x y z hop
    rw [bitwise_family_matched_iff dbg op add x y z (hfam op hop), huns]
  refine ⟨key, ?_, ?_⟩
  · have hcount : ∀ d : Bool, ∀ o ∈ bitwiseFamily, (semirings d o).length = 16 := by decide
    exact fun dbg op hop => hcount dbg op hop
  · intro dbg op add t hop ht
    obtain ⟨c, hc, -⟩ := selectCase_of_factoryOf (hfam op hop)
    apply unmatched_of_selectCase dbg add t t t hc
    rw [key dbg op add t t t hop]
    rintro ⟨-, h⟩
    revert ht
    cases t <;> simp at h ⊢

/-- Witness for C13: BXOR with the monoid BOR over int8 is unmatched, and BXOR
has 16 matched pairs. -/
theorem C13_bitwise_witness :
    GB_AxB_factory false GB_BXOR_opcode GB_BOR_opcode GB_INT8_code GB_INT8_code GB_INT8_code
      = .unmatched ∧
    (semirings false GB_BXOR_opcode).length = 16 :=
  ⟨C13_bitwise.2.2 false GB_BXOR_opcode GB_BOR_opcode GB_INT8_code (by decide) (by decide),
   C13_bitwise.2.1 false GB_BXOR_opcode (by decide)⟩

/-! ## C14: the comparison tags -/

/-- C14: for the multiply tags EQ, GT, LT, GE, LE a kernel is returned if and
only if the monoid is one of LOR, LAND, LXOR, EQ, ANY and the operand type is
not complex (55 pairs each); for NE, if and only if the monoid is one of
these five and the operand type is one of the 10 non-boolean real types (50
pairs).  Every kernel bound for a comparison tag has one of these boolean
monoids and a multiply operator with boolean result. -/
theorem C14_compare :
    (∀ (dbg : Bool) (op add : GB_Opcode) (x y z : GB_Type_code),
      op ∈ [GB_EQ_opcode, GB_GT_opcode, GB_LT_opcode, GB_GE_opcode, GB_LE_opcode] →
      ((∃ k, GB_AxB_factory dbg op add x y z = .matched k) ↔
        add ∈ [GB_LOR_opcode, GB_LAND_opcode, GB_LXOR_opcode, GB_EQ_opcode, GB_ANY_opcode] ∧
        isComplex x = false)) ∧
    (∀ (dbg : Bool) (add : GB_Opcode) (x y z : GB_Type_code),
      ((∃ k, GB_AxB_factory dbg GB_NE_opcode add x y z = .matched k) ↔
        add ∈ [GB_LOR_opcode, GB_LAND_opcode, GB_LXOR_opcode, GB_EQ_opcode, GB_ANY_opcode] ∧
        isRealNonBool x = true)) ∧
    (∀ (dbg : Bool) (op : GB_Opcode),
      op ∈ [GB_EQ_opcode, GB_GT_opcode, GB_LT_opcode, GB_GE_opcode, GB_LE_opcode] →
      (compareSemirings dbg op).length = 55) ∧
    (∀ dbg : Bool, (compareSemirings dbg GB_NE_opcode).length = 50) ∧
    (∀ (dbg : Bool) (op add : GB_Opcode) (x y z : GB_Type_code) (k : Kernel),
      op ∈ compareFamily → GB_AxB_factory dbg op add x y z = .matched k →
      k.ztype = GB_BOOL_code ∧
      k.add ∈ [GB_LOR_opcode, GB_LAND_opcode, GB_LXOR_opcode, GB_EQ_opcode, GB_ANY_opcode]) := by
  have hfam : ∀ op ∈ compareFamily, factoryOf op = some .GB_AxB_compare_factory := by decide
  have hnb : ∀ op ∈ [GB_EQ_opcode, GB_GT_opcode, GB_LT_opcode, GB_GE_opcode, GB_LE_opcode],
      op ∈ compareFamily ∧ excludeBoolean op = false := by decide
  refine ⟨?_, ?_, ?_, ?_, ?_⟩
  · intro dbg op add x y z hop
    rw [compare_family_matched_iff dbg op add x y z (hfam op (hnb op hop).1), (hnb op hop).2]
    simp
  · intro dbg add x y z
    rw [compare_family_matched_iff dbg GB_NE_opcode add x y z (by decide)]
    have : excludeBoolean GB_NE_opcode = true := by decide
    rw [this]
    cases x <;> simp [isComplex, isRealNonBool]
  · have hcount : ∀ d : Bool,
        ∀ o ∈ [GB_EQ_opcode, GB_GT_opcode, GB_LT_opcode, GB_GE_opcode, GB_LE_opcode],
        (compareSemirings d o).length = 55 := by decide
    exact fun dbg op hop => hcount dbg op hop
  · decide
  · intro dbg op add x y z k hop hk
    have hadd := ((compare_family_matched_iff dbg op add x y z (hfam op hop)).1 ⟨k, hk⟩).1
    obtain ⟨c, hc, hkc⟩ := factory_with_matched hk
    obtain ⟨hka, hkm⟩ := includedFactory_mult hkc
    obtain ⟨-, -, -, -, hname⟩ := accessors_of_selectCase hc
    refine ⟨?_, by rw [hka]; exact hadd⟩
    have hz : ∀ o ∈ compareFamily, ∀ m, mnameOf o = some m →
        (GB_AxB_factory_cases.find? (fun c => c.GB_MNAME == m)).map SwitchCase.factory
          = some .GB_AxB_compare_factory := by
      intro o ho m hm
      simp only [compareFamily, List.mem_cons, List.mem_singleton, List.not_mem_nil,
        or_false] at ho
      rcases ho with rfl | rfl | rfl | rfl | rfl | rfl <;>
        (cases (Option.some.inj hm); rfl)
    have hfind := hz op hop k.mult (by rw [hname, hkm])
    unfold Kernel.ztype
    cases hq : GB_AxB_factory_cases.find? (fun c => c.GB_MNAME == k.mult) with
    | none => rw [hq] at hfind; cases hfind
    | some c1 =>
      rw [hq] at hfind
      have hc1 : c1.factory = .GB_AxB_compare_factory := Option.some.inj hfind
      simp [hc1]

/-- Witness for C14: GT with the monoid LXOR over the operand type FP32. -/
theorem C14_compare_witness :
    (compareSemirings true GB_GT_opcode).length = 55 ∧
    (Kernel.mk GB_LXOR_opcode "_gt" GB_FP32_code).ztype = GB_BOOL_code :=
  ⟨C14_compare.2.2.1 true GB_GT_opcode (by decide),
   (C14_compare.2.2.2.2 true GB_GT_opcode GB_LXOR_opcode GB_FP32_code GB_FP32_code
      GB_BOOL_code _ (by decide) (by decide)).1⟩

/-! ## C15: the documented semiring counts of the type family -/

/-- C15: the number of matched pairs (monoid, type) is the one the case
comments document: 61 for FIRST and SECOND, made of 50 with a non-boolean real
type (the monoids MIN, MAX, PLUS, TIMES, ANY), 5 with the boolean type (LOR,
LAND, LXOR, EQ, ANY) and 6 with a complex type (PLUS, TIMES, ANY); 50 for MIN,
MAX and the six IS-comparisons; 56 for PLUS, MINUS, RMINUS, TIMES, DIV, RDIV
(50 non-boolean real and 6 complex); 55 for LOR, LAND, LXOR.  The pairs
counted range over all 13 type tags and the 13 monoid tags, and no monoid
outside these is ever matched. -/
theorem C15_type_family_counts :
    (∀ (dbg : Bool) (op : GB_Opcode), op ∈ [GB_FIRST_opcode, GB_SECOND_opcode] →
      (semirings dbg op).length = 61 ∧
      ((semirings dbg op).filter fun p => isRealNonBool p.2).length = 50 ∧
      ((semirings dbg op).filter fun p => decide (p.2 = GB_BOOL_code)).length = 5 ∧
      ((semirings dbg op).filter fun p => isComplex p.2).length = 6) ∧
    (∀ (dbg : Bool) (op add : GB_Opcode) (x y z : GB_Type_code),
      op ∈ [GB_FIRST_opcode, GB_SECOND_opcode] →
      ((∃ k, GB_AxB_factory dbg op add x y z = .matched k) ↔
        (isRealNonBool x = true ∧
          add ∈ [GB_MIN_opcode, GB_MAX_opcode, GB_PLUS_opcode, GB_TIMES_opcode,
                 GB_ANY_opcode]) ∨
        (x = GB_BOOL_code ∧
          add ∈ [GB_LOR_opcode, GB_LAND_opcode, GB_LXOR_opcode, GB_EQ_opcode,
                 GB_ANY_opcode]) ∨
        (isComplex x = true ∧ add ∈ [GB_PLUS_opcode, GB_TIMES_opcode, GB_ANY_opcode]))) ∧
    (∀ (dbg : Bool) (op : GB_Opcode),
      op ∈ [GB_MIN_opcode, GB_MAX_opcode, GB_ISEQ_opcode, GB_ISNE_opcode, GB_ISGT_opcode,
            GB_ISLT_opcode, GB_ISGE_opcode, GB_ISLE_opcode] →
      (semirings dbg op).length = 50) ∧
    (∀ (dbg : Bool) (op : GB_Opcode),
      op ∈ [GB_PLUS_opcode, GB_MINUS_opcode, GB_RMINUS_opcode, GB_TIMES_opcode, GB_DIV_opcode,
            GB_RDIV_opcode] →
      (semirings dbg op).length = 56 ∧
      ((semirings dbg op).filter fun p => isRealNonBool p.2).length = 50 ∧
      ((semirings dbg op).filter fun p => isComplex p.2).length = 6) ∧
    (∀ (dbg : Bool) (op : GB_Opcode),
      op ∈ [GB_LOR_opcode, GB_LAND_opcode, GB_LXOR_opcode] →
      (semirings dbg op).length = 55) ∧
    (∀ (dbg : Bool) (op add : GB_Opcode) (x y z : GB_Type_code) (k : Kernel),
      GB_AxB_factory dbg op add x y z = .matched k → add ∈ monoidTags) ∧
    (∀ t : GB_Type_code, t ∈ typeTags) := by
  refine ⟨?_, ?_, ?_, ?_, ?_, fun dbg op add x y z k h => matched_add_mem_monoidTags h,
    fun t => by cases t <;> decide⟩
  · have h : ∀ d : Bool, ∀ o ∈ [GB_FIRST_opcode, GB_SECOND_opcode],
        (semirings d o).length = 61 ∧
        ((semirings d o).filter fun p => isRealNonBool p.2).length = 50 ∧
        ((semirings d o).filter fun p => decide (p.2 = GB_BOOL_code)).length = 5 ∧
        ((semirings d o).filter fun p => isComplex p.2).length = 6 := by decide
    exact fun dbg op hop => h dbg op hop
  · intro dbg op add x y z hop
    have hflags : ∀ o ∈ [GB_FIRST_opcode, GB_SECOND_opcode],
        factoryOf o = some .GB_AxB_type_factory ∧ multIsPairOperator o = false ∧
        excludeBoolean o = false ∧ complexEligible o = true := by decide
    obtain ⟨h1, h2, h3, h4⟩ := hflags op hop
    rw [type_family_matched_iff_nopair dbg op add x y z h1 h2, h3, h4]
    simp only [true_and]
  · have h : ∀ d : Bool,
        ∀ o ∈ [GB_MIN_opcode, GB_MAX_opcode, GB_ISEQ_opcode, GB_ISNE_opcode, GB_ISGT_opcode,
               GB_ISLT_opcode, GB_ISGE_opcode, GB_ISLE_opcode],
        (semirings d o).length = 50 := by decide
    exact fun dbg op hop => h dbg op hop
  · have h : ∀ d : Bool,
        ∀ o ∈ [GB_PLUS_opcode, GB_MINUS_opcode, GB_RMINUS_opcode, GB_TIMES_opcode,
               GB_DIV_opcode, GB_RDIV_opcode],
        (semirings d o).length = 56 ∧
        ((semirings d o).filter fun p => isRealNonBool p.2).length = 50 ∧
        ((semirings d o).filter fun p => isComplex p.2).length = 6 := by decide
    exact fun dbg op hop => h dbg op hop
  · have h : ∀ d : Bool, ∀ o ∈ [GB_LOR_opcode, GB_LAND_opcode, GB_LXOR_opcode],
        (semirings d o).length = 55 := by decide
    exact fun dbg op hop => h dbg op hop

/-- Witness for C15: SECOND has 61 matched pairs, DIV has 56, and the monoid of
the kernel of (PLUS, FIRST, int8) is a monoid tag. -/
theorem C15_type_family_counts_witness :
    (semirings true GB_SECOND_opcode).length = 61 ∧
    (semirings true GB_DIV_opcode).length = 56 ∧
    GB_PLUS_opcode ∈ monoidTags :=
  ⟨(C15_type_family_counts.1 true GB_SECOND_opcode (by decide)).1,
   (C15_type_family_counts.2.2.2.1 true GB_DIV_opcode (by decide)).1,
   C15_type_family_counts.2.2.2.2.2.1 true GB_FIRST_opcode GB_PLUS_opcode GB_INT8_code
     GB_INT8_code GB_INT8_code ⟨GB_PLUS_opcode, "_first", GB_INT8_code⟩ (by decide)⟩

/-! ## C16: the tag PAIR -/

/-- C16: for the multiply tag PAIR a kernel is returned for exactly 26 pairs
(monoid, type): the monoids PLUS and ANY for each non-boolean real type, LXOR
and ANY for the boolean type, PLUS and ANY for each complex type.  The monoids
LAND, LOR, MAX, MIN, TIMES and EQ end unmatched with PAIR. -/
theorem C16_pair (dbg : Bool) :
    (semirings dbg GB_PAIR_opcode).length = 26 ∧
    ((semirings dbg GB_PAIR_opcode).filter fun p => isRealNonBool p.2).length = 20 ∧
    ((semirings dbg GB_PAIR_opcode).filter fun p => decide (p.2 = GB_BOOL_code)).length = 2 ∧
    ((semirings dbg GB_PAIR_opcode).filter fun p => isComplex p.2).length = 4 ∧
    (∀ (add : GB_Opcode) (x y z : GB_Type_code),
      ((∃ k, GB_AxB_factory dbg GB_PAIR_opcode add x y z = .matched k) ↔
        (isRealNonBool x = true ∧ add ∈ [GB_PLUS_opcode, GB_ANY_opcode]) ∨
        (x = GB_BOOL_code ∧ add ∈ [GB_LXOR_opcode, GB_ANY_opcode]) ∨
        (isComplex x = true ∧ add ∈ [GB_PLUS_opcode, GB_ANY_opcode]))) ∧
    (∀ (add : GB_Opcode) (x y z : GB_Type_code),
      add ∈ [GB_LAND_opcode, GB_LOR_opcode, GB_MAX_opcode, GB_MIN_opcode, GB_TIMES_opcode,
             GB_EQ_opcode] →
      GB_AxB_factory dbg GB_PAIR_opcode add x y z = .unmatched) := by
  have key : ∀ (add : GB_Opcode) (x y z : GB_Type_code),
      ((∃ k, GB_AxB_factory dbg GB_PAIR_opcode add x y z = .matched k) ↔
        (isRealNonBool x = true ∧ add ∈ [GB_PLUS_opcode, GB_ANY_opcode]) ∨
        (x = GB_BOOL_code ∧ add ∈ [GB_LXOR_opcode, GB_ANY_opcode]) ∨
        (isComplex x = true ∧ add ∈ [GB_PLUS_opcode, GB_ANY_opcode])) := by
    intro add x y z
    have h1 : factoryOf GB_PAIR_opcode = some .GB_AxB_type_factory := by decide
    have h2 : multIsPairOperator GB_PAIR_opcode = true := by decide
    have h3 : excludeBoolean GB_PAIR_opcode = false := by decide
    have h4 : complexEligible GB_PAIR_opcode = true := by decide
    rw [type_family_matched_iff dbg GB_PAIR_opcode add x y z h1, h2, h3, h4]
    simp
  refine ⟨by cases dbg <;> decide, by cases dbg <;> decide, by cases dbg <;> decide,
    by cases dbg <;> decide, key, ?_⟩
  intro add x y z hadd
  obtain ⟨c, hc, -⟩ := selectCase_of_factoryOf
    (show factoryOf GB_PAIR_opcode = some .GB_AxB_type_factory by decide)
  apply unmatched_of_selectCase dbg add x y z hc
  rw [key add x y z]
  simp only [List.mem_cons, List.mem_singleton, List.not_mem_nil, or_false] at hadd ⊢
  rcases hadd with rfl | rfl | rfl | rfl | rfl | rfl <;> simp

/-- Witness for C16: the monoid MAX with PAIR over FP64 is unmatched. -/
theorem C16_pair_witness :
    GB_AxB_factory true GB_PAIR_opcode GB_MAX_opcode GB_FP64_code GB_FP64_code GB_FP64_code
      = .unmatched :=
  (C16_pair true).2.2.2.2.2 GB_MAX_opcode GB_FP64_code GB_FP64_code GB_FP64_code (by decide)

/-! ## C17: the logical tags -/

/-- C18: `GB_NO_BOOLEAN` is in effect exactly for MIN, MAX, PLUS, MINUS,
RMINUS, TIMES, DIV, RDIV, ISEQ, ISNE, ISGT, ISLT, ISGE, ISLE and NE, which are
exactly the tags for which a case comment names a boolean equivalent.  For
each of them the boolean type ends unmatched for every monoid.  The named
equivalent (LAND, LOR, LXOR, FIRST, SECOND, EQ, GT, LT, GE, LE) does not have
the flag, is not itself renamed, and has a boolean kernel; so in every class
made of an equivalent and the tags renamed to it, the equivalent is the only
member whose boolean case is generated. -/
theorem C18_excludeBoolean :
    (∀ op, excludeBoolean op = true ↔
      op ∈ [GB_MIN_opcode, GB_MAX_opcode, GB_PLUS_opcode, GB_MINUS_opcode, GB_RMINUS_opcode,
            GB_TIMES_opcode, GB_DIV_opcode, GB_RDIV_opcode, GB_ISEQ_opcode, GB_ISNE_opcode,
            GB_ISGT_opcode, GB_ISLT_opcode, GB_ISGE_opcode, GB_ISLE_opcode, GB_NE_opcode]) ∧
    (∀ op, excludeBoolean op = true ↔ (booleanEquivalent op).isSome = true) ∧
    (∀ (dbg : Bool) (op add : GB_Opcode) (y z : GB_Type_code), excludeBoolean op = true →
      GB_AxB_factory dbg op add GB_BOOL_code y z = .unmatched) ∧
    (∀ (dbg : Bool) (op e : GB_Opcode), booleanEquivalent op = some e →
      excludeBoolean e = false ∧ booleanEquivalent e = none ∧
      ∃ k, GB_AxB_factory dbg e GB_ANY_opcode GB_BOOL_code GB_BOOL_code GB_BOOL_code
        = .matched k) ∧
    (∀ e ∈ [GB_LAND_opcode, GB_LOR_opcode, GB_LXOR_opcode, GB_FIRST_opcode, GB_SECOND_opcode,
            GB_EQ_opcode, GB_GT_opcode, GB_LT_opcode, GB_GE_opcode, GB_LE_opcode],
      ((e :: switchLabels.filter fun op => decide (booleanEquivalent op = some e)).filter
        fun m => !excludeBoolean m) = [e]) := by
  refine ⟨?_, ?_, ?_, ?_, by decide⟩
  · intro op
    cases op <;> first | decide | simp [excludeBoolean, selectCase_other]
  · intro op
    cases op <;> first | decide | simp [excludeBoolean, selectCase_other, booleanEquivalent]
  · intro dbg op add y z hop
    have htab : ∀ c ∈ GB_AxB_factory_cases, c.GB_NO_BOOLEAN = true →
        c.factory = .GB_AxB_type_factory ∨ c.factory = .GB_AxB_compare_factory := by decide
    cases hc : selectCase op with
    | none => simp [excludeBoolean, hc] at hop
    | some c =>
      obtain ⟨hf, hnb, -⟩ := accessors_of_selectCase hc
      rw [hop] at hnb
      rw [factory_eq_of_selectCase dbg add GB_BOOL_code y z hc, ofOption_eq_unmatched]
      rcases htab c (selectCase_some hc).1 hnb.symm with h | h <;> rw [h]
      · exact type_factory_no_boolean c add y z hnb.symm
      · show GB_AxB_compare_factory c add GB_BOOL_code y z = none
        unfold GB_AxB_compare_factory
        simp [isComplex, hnb.symm]
  · intro dbg op e he
    have hall : ∀ d : Bool,
        ∀ e ∈ [GB_LAND_opcode, GB_LOR_opcode, GB_LXOR_opcode, GB_FIRST_opcode,
               GB_SECOND_opcode, GB_EQ_opcode, GB_GT_opcode, GB_LT_opcode, GB_GE_opcode,
               GB_LE_opcode],
        excludeBoolean e = false ∧ booleanEquivalent e = none ∧
        (GB_AxB_factory d e GB_ANY_opcode GB_BOOL_code GB_BOOL_code GB_BOOL_code).isMatched
          = true := by decide
    have hmem : e ∈ [GB_LAND_opcode, GB_LOR_opcode, GB_LXOR_opcode, GB_FIRST_opcode,
        GB_SECOND_opcode, GB_EQ_opcode, GB_GT_opcode, GB_LT_opcode, GB_GE_opcode,
        GB_LE_opcode] := by
      cases op <;> simp [booleanEquivalent] at he <;> subst he <;> decide
    obtain ⟨h1, h2, h3⟩ := hall dbg e hmem
    exact ⟨h1, h2, (isMatched_iff _).1 h3⟩

/-- Witness for C18: RDIV has the flag, is unmatched over the boolean type,
and its equivalent SECOND does not have the flag. -/
theorem C18_excludeBoolean_witness :
    GB_AxB_factory true GB_RDIV_opcode GB_ANY_opcode GB_BOOL_code GB_BOOL_code GB_BOOL_code
      = .unmatched ∧
    excludeBoolean GB_SECOND_opcode = false :=
  ⟨C18_excludeBoolean.2.2.1 true GB_RDIV_opcode GB_ANY_opcode GB_BOOL_code GB_BOOL_code
      (by decide),
   (C18_excludeBoolean.2.2.2.1 true GB_RDIV_opcode GB_SECOND_opcode (by decide)).1⟩

/-! ## C19: soundness of the collapsing rules over the boolean domain -/

/-- C19: over the operands 0 and 1, with the operators evaluated as the case
comments write them and the result read back by the test `z != 0`: MIN, TIMES
and LAND are the same function (the conjunction); MAX, PLUS and LOR are the
same function (the disjunction); MINUS, RMINUS, NE, ISNE and LXOR are the same
function (the exclusive or). -/
theorem C19_collapsing_sound (x y : Bool) :
    (boolOp GB_MIN_opcode x y = some (x && y) ∧
      boolOp GB_TIMES_opcode x y = some (x && y) ∧
      boolOp GB_LAND_opcode x y = some (x && y)) ∧
    (boolOp GB_MAX_opcode x y = some (x || y) ∧
      boolOp GB_PLUS_opcode x y = some (x || y) ∧
      boolOp GB_LOR_opcode x y = some (x || y)) ∧
    (boolOp GB_MINUS_opcode x y = some (xor x y) ∧
      boolOp GB_RMINUS_opcode x y = some (xor x y) ∧
      boolOp GB_NE_opcode x y = some (xor x y) ∧
      boolOp GB_ISNE_opcode x y = some (xor x y) ∧
      boolOp GB_LXOR_opcode x y = some (xor x y)) := by
  cases x <;> cases y <;> decide

/-! ## C20: no boolean kernel is redundant -/

/-- C20: the multiply tags with a boolean kernel are exactly the eleven tags
FIRST, SECOND, PAIR, LOR, LAND, LXOR, EQ, GT, LT, GE, LE; over the booleans
each of them is a defined function, and any two different ones differ at some
pair of operands. -/
theorem C20_boolean_kernels_distinct :
    (∀ (dbg : Bool) (op : GB_Opcode),
      (∃ add k, GB_AxB_factory dbg op add GB_BOOL_code GB_BOOL_code GB_BOOL_code = .matched k)
        ↔ op ∈ booleanTags) ∧
    booleanTags.length = 11 ∧ booleanTags.Nodup ∧
    (∀ op ∈ booleanTags, ∀ x y, (boolOp op x y).isSome = true) ∧
    (∀ a ∈ booleanTags, ∀ b ∈ booleanTags, a ≠ b → ∃ x y, boolOp a x y ≠ boolOp b x y) := by
  refine ⟨?_, by decide, by decide, by decide, by decide⟩
  intro dbg op
  constructor
  · rintro ⟨add, k, hk⟩
    obtain ⟨c, hc, -⟩ := factory_with_matched hk
    obtain ⟨hf, hnb, -⟩ := accessors_of_selectCase hc
    have hm : ∃ k, GB_AxB_factory dbg op add GB_BOOL_code GB_BOOL_code GB_BOOL_code
        = .matched k := ⟨k, hk⟩
    have hex : excludeBoolean op = false ∧
        (factoryOf op = some .GB_AxB_type_factory ∨
          factoryOf op = some .GB_AxB_compare_factory) := by
      cases hcf : c.factory <;> rw [hcf] at hf
      · rcases (type_family_matched_iff dbg op add _ _ _ hf).1 hm with h | h | h
        · exact absurd h.1 (by decide)
        · exact ⟨h.2.1, Or.inl hf⟩
        · exact absurd h.1 (by decide)
      · have h := (compare_family_matched_iff dbg op add _ _ _ hf).1 hm
        refine ⟨?_, Or.inr hf⟩
        cases hb : excludeBoolean op
        · rfl
        · exact absurd ⟨rfl, hb⟩ h.2.2
      · exact absurd ((bitwise_family_matched_iff dbg op add _ _ _ hf).1 hm).2 (by decide)
      · rcases ((positional_family_matched_iff dbg op add _ _ _ hf).1 hm).2 with h | h <;>
          cases h
    obtain ⟨h1, h2⟩ := hex
    revert h1 h2
    cases op <;> first | decide | simp [factoryOf, selectCase_other]
  · intro hop
    have hall : ∀ d : Bool, ∀ o ∈ booleanTags,
        (GB_AxB_factory d o GB_ANY_opcode GB_BOOL_code GB_BOOL_code GB_BOOL_code).isMatched
          = true := by decide
    obtain ⟨k, hk⟩ := (isMatched_iff _).1 (hall dbg op hop)
    exact ⟨GB_ANY_opcode, k, hk⟩

/-- Witness for C20: GE and LE differ as boolean functions. -/
theorem C20_boolean_kernels_distinct_witness :
    ∃ x y, boolOp GB_GE_opcode x y ≠ boolOp GB_LE_opcode x y :=
  C20_boolean_kernels_distinct.2.2.2.2 GB_GE_opcode (by decide) GB_LE_opcode (by decide)
    (by decide)

end GraphBLAS
